import Mathlib

/-!
dns-fuzz-server: a shallow embedding of `dns.hpp` and `dns_server.cpp`.

The development follows the C++ sources declaration by declaration.

* Fixed-width unsigned integers are natural numbers; every narrowing conversion the
  source performs (a `uint8_t` parameter receiving a 16-bit value, a getter whose return
  type is narrower than the member it returns) is written out as an explicit `% 2^w`.
* `std::string` is `String`, `std::vector<uint8_t>` (`PacketData`, `WireFormat`) is a list
  of octets, `std::map` is an association list with unique keys.
* Functions and types declared in headers that are not part of the sources
  (`Domainname::toString`, `verifyTSIGResourceRecord`, the `RecordNSEC` constructor
  taking a type list, ...) are parameters of the definitions that call them.
-/

namespace dns

/-! ## Basic types of `dns.hpp` -/

/-- The typedef `uint16_t Type` (the name `Type` is taken in Lean). -/
abbrev Type_ := Nat

/-- The typedef `uint8_t ResponseCode`. -/
abbrev ResponseCode := Nat

/-- A sequence of octets, `std::vector<uint8_t>`. -/
abbrev PacketData := List Nat

/-- The raw bytes of a message, `WireFormat( begin, end )`. -/
abbrev WireFormat := List Nat

def TYPE_A : Type_ := 1
def TYPE_NS : Type_ := 2
def TYPE_CNAME : Type_ := 5
def TYPE_SOA : Type_ := 6
def TYPE_WKS : Type_ := 11
def TYPE_MX : Type_ := 15
def TYPE_TXT : Type_ := 16
def TYPE_SIG : Type_ := 24
def TYPE_KEY : Type_ := 25
def TYPE_AAAA : Type_ := 28
def TYPE_NXT : Type_ := 30
def TYPE_SRV : Type_ := 33
def TYPE_NAPTR : Type_ := 35
def TYPE_DNAME : Type_ := 39
def TYPE_OPT : Type_ := 41
def TYPE_APL : Type_ := 42
def TYPE_DS : Type_ := 43
def TYPE_RRSIG : Type_ := 46
def TYPE_NSEC : Type_ := 47
def TYPE_DNSKEY : Type_ := 48
def TYPE_NSEC3 : Type_ := 50
def TYPE_NSEC3PARAM : Type_ := 51
def TYPE_TLSA : Type_ := 52
def TYPE_SPF : Type_ := 99
def TYPE_TKEY : Type_ := 249
def TYPE_TSIG : Type_ := 250
def TYPE_IXFR : Type_ := 251
def TYPE_AXFR : Type_ := 252
def TYPE_ANY : Type_ := 255
def TYPE_CAA : Type_ := 257

/-- The typedef `uint16_t OptType`. -/
abbrev OptType := Nat

def OPT_NSID : OptType := 3
def OPT_CLIENT_SUBNET : OptType := 8
def OPT_COOKIE : OptType := 10
def OPT_TCP_KEEPALIVE : OptType := 11
def OPT_KEY_TAG : OptType := 14
def OPT_EXTEND_ERROR : OptType := 15
def OPT_ERROR_REPORTING : OptType := 18

def NO_ERROR : ResponseCode := 0
def NXRRSET : ResponseCode := 0
def FORMAT_ERROR : ResponseCode := 1
def SERVER_ERROR : ResponseCode := 2
def NAME_ERROR : ResponseCode := 3
def NXDOMAIN : ResponseCode := 3
def NOT_IMPLEENTED : ResponseCode := 4
def REFUSED : ResponseCode := 5
def BADSIG : ResponseCode := 16
def BADKEY : ResponseCode := 17
def BADTIME : ResponseCode := 18

/-- Conversion of an integer to `uint8_t`. -/
def toUInt8 (x : Nat) : Nat := x % 2 ^ 8

/-- Conversion of an integer to `uint16_t`. -/
def toUInt16 (x : Nat) : Nat := x % 2 ^ 16

/-- Conversion of an integer to `uint32_t`. -/
def toUInt32 (x : Nat) : Nat := x % 2 ^ 32

/-- Conversion of a signed integer to `uint64_t` (the usual arithmetic conversion applied
when a `time_t` expression is compared with a `uint64_t`). -/
def toUInt64 (x : Int) : Nat := (x % 2 ^ 64).toNat

/-- Conversion of an integer to `int32_t` (`TTL`): the value modulo `2^32` read as two's
complement. -/
def toInt32 (x : Int) : Int :=
  let m := x % 2 ^ 32
  if m < 2 ^ 31 then m else m - 2 ^ 32

/-- A domain name: its labels in order, case preserved (`domainname.hpp` is not part of
the sources; only the identity of a name matters to the code embedded here). -/
structure Domainname where
  labels : List String
deriving DecidableEq, Repr

/-! ## `dns_server.cpp`: the TSIG key table and `verifyTSIGQuery` -/

/-- The value type of the key table; `verifyTSIGQuery` reads `key` and `algorithm`. -/
structure TSIGKey where
  key : PacketData
  algorithm : Domainname
deriving DecidableEq, Repr

/-- The TSIG pseudo-record of a parsed query, `query.tsig_rr`, with the members
`verifyTSIGQuery` reads. `signed_time` is a `uint64_t`, `fudge` a `uint16_t`. -/
structure TSIGRR where
  key_name : Domainname
  signed_time : Nat
  fudge : Nat
  mac : PacketData
  mac_size : Nat
  original_id : Nat
  error : Nat
  other : PacketData
deriving DecidableEq, Repr

/-- The parsed query, `PacketInfo`, restricted to what `verifyTSIGQuery` reads. -/
structure PacketInfo where
  tsig : Bool
  tsig_rr : TSIGRR
deriving DecidableEq, Repr

/-- The `TSIGInfo` value assembled by `verifyTSIGQuery` (lines 28-38). -/
structure TSIGInfo where
  name : String
  key : PacketData
  algorithm : Domainname
  signed_time : Nat
  fudge : Nat
  mac : PacketData
  mac_size : Nat
  original_id : Nat
  error : Nat
  other : PacketData
deriving DecidableEq, Repr

/-- The functions `verifyTSIGQuery` calls whose definitions are outside the sources. -/
structure Collaborators where
  /-- The method `Domainname::toString`. -/
  toString : Domainname → String
  /-- The function `verifyTSIGResourceRecord( tsig_info, query, message )`. -/
  verifyTSIGResourceRecord : TSIGInfo → PacketInfo → WireFormat → Bool

/-- The lookup `std::map<std::string, TSIGKey>::find`: the entry whose key equals `name`, compared as
`std::string` values (octet for octet). -/
def mapFind : List (String × TSIGKey) → String → Option TSIGKey
  | [], _ => none
  | (k, v) :: rest, name => if k = name then some v else mapFind rest name

/-- The insertion `std::map<std::string, TSIGKey>::insert`: adds the pair unless the key is already
present, in which case the map is left as it is. -/
def mapInsert (m : List (String × TSIGKey)) (name : String) (key : TSIGKey) :
    List (String × TSIGKey) :=
  match mapFind m name with
  | some _ => m
  | none => m ++ [(name, key)]

/-- The server state read by the TSIG code: the key table `mNameToKey`. -/
structure DNSServer where
  mNameToKey : List (String × TSIGKey)
deriving DecidableEq, Repr

/-- The method `void DNSServer::addTSIGKey( const std::string &name, const TSIGKey &key )`. -/
def DNSServer.addTSIGKey (self : DNSServer) (name : String) (key : TSIGKey) : DNSServer :=
  { self with mNameToKey := mapInsert self.mNameToKey name key }

/-- The method `ResponseCode DNSServer::verifyTSIGQuery( query, begin, end )`; `now` is the value of
`time( NULL )`, a signed 64-bit `time_t`. -/
def DNSServer.verifyTSIGQuery (X : Collaborators) (now : Int) (self : DNSServer)
    (query : PacketInfo) (message : WireFormat) : ResponseCode :=
  match mapFind self.mNameToKey (X.toString query.tsig_rr.key_name) with
  | none => BADKEY
  | some tsig_key =>
    let tsig_info : TSIGInfo :=
      { name := X.toString query.tsig_rr.key_name
        key := tsig_key.key
        algorithm := tsig_key.algorithm
        signed_time := query.tsig_rr.signed_time
        fudge := query.tsig_rr.fudge
        mac := query.tsig_rr.mac
        mac_size := query.tsig_rr.mac_size
        original_id := query.tsig_rr.original_id
        error := query.tsig_rr.error
        other := query.tsig_rr.other }
    if query.tsig_rr.signed_time > toUInt64 (now - query.tsig_rr.fudge) ∧
        query.tsig_rr.signed_time < toUInt64 (now + query.tsig_rr.fudge) then
      BADTIME
    else if X.verifyTSIGResourceRecord tsig_info query message then
      NO_ERROR
    else
      BADSIG

/-- The claim's relation "differs only in the case of ASCII letters": the two strings are
equal once every ASCII capital is replaced by its small letter. -/
def sameUpToCase (a b : String) : Prop :=
  a.data.map Char.toLower = b.data.map Char.toLower

instance (a b : String) : Decidable (sameUpToCase a b) := by
  unfold sameUpToCase; infer_instance

/-- A rendering of a domain name used to instantiate `Collaborators.toString` at concrete
inputs: every label followed by a dot, the root as a single dot, case preserved. -/
def renderName (d : Domainname) : String :=
  match d.labels with
  | [] => "."
  | ls => String.mk (ls.foldr (fun l acc => l.data ++ '.' :: acc) [])

/-- Concrete collaborators for evaluation: `renderName` as `toString`, and a verifier
whose answer is fixed to `ok`. -/
def fixedCollaborators (ok : Bool) : Collaborators :=
  { toString := renderName
    verifyTSIGResourceRecord := fun _ _ _ => ok }

/-- A sample key. -/
def sampleKey : TSIGKey :=
  { key := [1, 2, 3, 4], algorithm := ⟨["hmac-sha256"]⟩ }

/-- A server whose table holds `sampleKey` under the name `name`. -/
def sampleServer (name : String) : DNSServer :=
  DNSServer.addTSIGKey { mNameToKey := [] } name sampleKey

/-- A TSIG query for key name `labels` signed at `signed_time` with window `fudge`. -/
def sampleQuery (labels : List String) (signed_time fudge : Nat) : PacketInfo :=
  { tsig := true
    tsig_rr :=
      { key_name := ⟨labels⟩
        signed_time := signed_time
        fudge := fudge
        mac := [0xde, 0xad]
        mac_size := 2
        original_id := 1
        error := 0
        other := [] } }

/-! ## `dns.hpp`: the RDATA classes -/

/-- The class `RecordRaw`: `uint16_t mRRType; PacketData mData;`. -/
structure RecordRaw where
  mRRType : Nat
  mData : PacketData
deriving DecidableEq, Repr

/-- The constructor `RecordRaw( uint8_t t, const PacketData &d ) : mRRType( t ), mData( d )`:
the argument is converted to the parameter type `uint8_t`, then widened into the 16-bit
member. -/
def RecordRaw.new (t : Nat) (d : PacketData) : RecordRaw :=
  { mRRType := toUInt16 (toUInt8 t), mData := d }

/-- The method `RecordRaw::type()`: `return mRRType;`. -/
def RecordRaw.type (self : RecordRaw) : Type_ := self.mRRType

/-- The method `RecordRaw::size()`: `return mData.size();` as a `uint32_t`. -/
def RecordRaw.size (self : RecordRaw) : Nat := toUInt32 self.mData.length

/-- The method `RecordRaw::clone()`: `return new RecordRaw( mRRType, mData );`. -/
def RecordRaw.clone (self : RecordRaw) : RecordRaw := RecordRaw.new self.mRRType self.mData

/-- The class `RecordRRSIG` with its nine members; `mOriginalTTL` is a `TTL` (`int32_t`). -/
structure RecordRRSIG where
  mTypeCovered : Nat
  mAlgorithm : Nat
  mLabelCount : Nat
  mOriginalTTL : Int
  mExpiration : Nat
  mInception : Nat
  mKeyTag : Nat
  mSigner : Domainname
  mSignature : PacketData
deriving DecidableEq, Repr

/-- The constructor `RecordRRSIG( Type t, uint8_t algo, uint8_t label, TTL ttl,
uint32_t expire, uint32_t incept, uint16_t tag, sign, sig )`, each argument converted to
its parameter type. -/
def RecordRRSIG.new (t algo label : Nat) (ttl : Int) (expire incept tag : Nat)
    (sign : Domainname) (sig : PacketData) : RecordRRSIG :=
  { mTypeCovered := toUInt16 t
    mAlgorithm := toUInt8 algo
    mLabelCount := toUInt8 label
    mOriginalTTL := toInt32 ttl
    mExpiration := toUInt32 expire
    mInception := toUInt32 incept
    mKeyTag := toUInt16 tag
    mSigner := sign
    mSignature := sig }

/-- The getter `Type getTypeCovered() const`. -/
def RecordRRSIG.getTypeCovered (self : RecordRRSIG) : Nat := toUInt16 self.mTypeCovered

/-- The getter `uint8_t getAlgorithm() const`. -/
def RecordRRSIG.getAlgorithm (self : RecordRRSIG) : Nat := toUInt8 self.mAlgorithm

/-- The getter `uint8_t getLabelCount() const`. -/
def RecordRRSIG.getLabelCount (self : RecordRRSIG) : Nat := toUInt8 self.mLabelCount

/-- The getter `TTL getOriginalTTL() const`. -/
def RecordRRSIG.getOriginalTTL (self : RecordRRSIG) : Int := toInt32 self.mOriginalTTL

/-- The getter `uint32_t getExpiration() const`. -/
def RecordRRSIG.getExpiration (self : RecordRRSIG) : Nat := toUInt32 self.mExpiration

/-- The getter `uint32_t getInception() const`. -/
def RecordRRSIG.getInception (self : RecordRRSIG) : Nat := toUInt32 self.mInception

/-- The getter `uint8_t getKeyTag() const { return mKeyTag; }`: the 16-bit member is
converted to the return type `uint8_t`. -/
def RecordRRSIG.getKeyTag (self : RecordRRSIG) : Nat := toUInt8 self.mKeyTag

/-- The getter `const Domainname &getSigner() const`. -/
def RecordRRSIG.getSigner (self : RecordRRSIG) : Domainname := self.mSigner

/-- The getter `const PacketData &getSignature() const`. -/
def RecordRRSIG.getSignature (self : RecordRRSIG) : PacketData := self.mSignature

/-- The method `RecordRRSIG::type()`. -/
def RecordRRSIG.type (_self : RecordRRSIG) : Type_ := TYPE_RRSIG

/-- The method `RecordRRSIG::clone()`, built from the members themselves. -/
def RecordRRSIG.clone (self : RecordRRSIG) : RecordRRSIG :=
  RecordRRSIG.new self.mTypeCovered self.mAlgorithm self.mLabelCount self.mOriginalTTL
    self.mExpiration self.mInception self.mKeyTag self.mSigner self.mSignature

/-- The class `RecordSIG : public RecordRRSIG`: no members of its own. -/
structure RecordSIG extends RecordRRSIG
deriving DecidableEq, Repr

/-- The constructor `RecordSIG( Type t, uint8_t algo, uint8_t label, uint32_t ttl, ... )`:
`ttl` is converted to `uint32_t` and handed to the `RecordRRSIG` constructor, whose
parameter is a `TTL`. -/
def RecordSIG.new (t algo label : Nat) (ttl : Int) (expire incept tag : Nat)
    (sign : Domainname) (sig : PacketData) : RecordSIG :=
  { toRecordRRSIG :=
      RecordRRSIG.new t algo label (ttl % 2 ^ 32) expire incept tag sign sig }

/-- The method `RecordSIG::type()`. -/
def RecordSIG.type (_self : RecordSIG) : Type_ := TYPE_SIG

/-- The method `RecordSIG::clone()`: a new `RecordSIG` built from the values the getters
return. -/
def RecordSIG.clone (self : RecordSIG) : RecordSIG :=
  RecordSIG.new self.getTypeCovered self.getAlgorithm self.getLabelCount self.getOriginalTTL
    self.getExpiration self.getInception self.getKeyTag self.getSigner self.getSignature

/-- The class `RecordDNSKEY`: `uint16_t mFlag; uint8_t mAlgorithm; PacketData mPublicKey;`. -/
structure RecordDNSKEY where
  mFlag : Nat
  mAlgorithm : Nat
  mPublicKey : PacketData
deriving DecidableEq, Repr

/-- The constructor `RecordDNSKEY( uint16_t f, uint8_t algo, const PacketData &key )`. -/
def RecordDNSKEY.new (f algo : Nat) (key : PacketData) : RecordDNSKEY :=
  { mFlag := toUInt16 f, mAlgorithm := toUInt8 algo, mPublicKey := key }

/-- The getter `uint16_t getFlag() const`. -/
def RecordDNSKEY.getFlag (self : RecordDNSKEY) : Nat := toUInt16 self.mFlag

/-- The getter `uint8_t getAlgorithm() const`. -/
def RecordDNSKEY.getAlgorithm (self : RecordDNSKEY) : Nat := toUInt8 self.mAlgorithm

/-- The getter `const PacketData getPublicKey() const`. -/
def RecordDNSKEY.getPublicKey (self : RecordDNSKEY) : PacketData := self.mPublicKey

/-- The method `RecordDNSKEY::type()`. -/
def RecordDNSKEY.type (_self : RecordDNSKEY) : Type_ := TYPE_DNSKEY

/-- The method `RecordDNSKEY::clone()`. -/
def RecordDNSKEY.clone (self : RecordDNSKEY) : RecordDNSKEY :=
  RecordDNSKEY.new self.mFlag self.mAlgorithm self.mPublicKey

/-- The class `RecordKEY : public RecordDNSKEY`. -/
structure RecordKEY extends RecordDNSKEY
deriving DecidableEq, Repr

/-- The constructor `RecordKEY( uint16_t f, uint8_t a, const PacketData &p )`. -/
def RecordKEY.new (f a : Nat) (p : PacketData) : RecordKEY :=
  { toRecordDNSKEY := RecordDNSKEY.new (toUInt16 f) (toUInt8 a) p }

/-- The method `RecordKEY::type()`. -/
def RecordKEY.type (_self : RecordKEY) : Type_ := TYPE_KEY

/-- The method `RecordKEY::clone()`:
`return new RecordKEY( getFlag(), getAlgorithm(), getPublicKey() );`. -/
def RecordKEY.clone (self : RecordKEY) : RecordKEY :=
  RecordKEY.new self.getFlag self.getAlgorithm self.getPublicKey

/-- The class `NSECBitmapField::Window`: `uint16_t mIndex; std::vector<Type> mTypes;`. -/
structure Window where
  mIndex : Nat
  mTypes : List Type_
deriving DecidableEq, Repr

/-- The class `NSECBitmapField`: `std::map<uint8_t, Window> mWindows;`. -/
structure NSECBitmapField where
  mWindows : List (Nat × Window)
deriving DecidableEq, Repr

/-- The class `RecordNSEC`: `Domainname mNextDomainname; NSECBitmapField mBitmaps;`. -/
structure RecordNSEC where
  mNextDomainname : Domainname
  mBitmaps : NSECBitmapField
deriving DecidableEq, Repr

/-- The members of the NSEC classes that `dns.hpp` declares without a body. -/
structure NSECCollaborators where
  /-- The method `std::vector<Type> NSECBitmapField::getTypes() const`. -/
  getTypes : NSECBitmapField → List Type_
  /-- The constructor `RecordNSEC( const Domainname &next, const std::vector<Type> &types )`. -/
  ofTypes : Domainname → List Type_ → RecordNSEC

/-- The constructor `RecordNSEC( const Domainname &next, const NSECBitmapField &b )`. -/
def RecordNSEC.new (next : Domainname) (b : NSECBitmapField) : RecordNSEC :=
  { mNextDomainname := next, mBitmaps := b }

/-- The getter `const Domainname &getNextDomainname() const`. -/
def RecordNSEC.getNextDomainname (self : RecordNSEC) : Domainname := self.mNextDomainname

/-- The getter `std::vector<Type> getTypes() const { return mBitmaps.getTypes(); }`. -/
def RecordNSEC.getTypes (N : NSECCollaborators) (self : RecordNSEC) : List Type_ :=
  N.getTypes self.mBitmaps

/-- The method `RecordNSEC::type()`. -/
def RecordNSEC.type (_self : RecordNSEC) : Type_ := TYPE_NSEC

/-- The method `RecordNSEC::clone()`: `return new RecordNSEC( mNextDomainname, mBitmaps );`. -/
def RecordNSEC.clone (self : RecordNSEC) : RecordNSEC :=
  RecordNSEC.new self.mNextDomainname self.mBitmaps

/-- The class `RecordNXT : public RecordNSEC`. -/
structure RecordNXT extends RecordNSEC
deriving DecidableEq, Repr

/-- The constructor `RecordNXT( const Domainname &next, const NSECBitmapField &b )`. -/
def RecordNXT.new (next : Domainname) (b : NSECBitmapField) : RecordNXT :=
  { toRecordNSEC := RecordNSEC.new next b }

/-- The constructor `RecordNXT( const Domainname &next, const std::vector<Type> &types )`. -/
def RecordNXT.ofTypes (N : NSECCollaborators) (next : Domainname) (types : List Type_) :
    RecordNXT :=
  { toRecordNSEC := N.ofTypes next types }

/-- The method `RecordNXT::type()`. -/
def RecordNXT.type (_self : RecordNXT) : Type_ := TYPE_NXT

/-- The method `RecordNXT::clone()`:
`return new RecordNXT( getNextDomainname(), getTypes() );`. -/
def RecordNXT.clone (N : NSECCollaborators) (self : RecordNXT) : RecordNXT :=
  RecordNXT.ofTypes N self.getNextDomainname (self.getTypes N)

/-- The class `RecordTKEY` with its eight public members. -/
structure RecordTKEY where
  mDomain : Domainname
  mAlgorithm : Domainname
  mInception : Nat
  mExpiration : Nat
  mMode : Nat
  mError : Nat
  mKey : PacketData
  mOtherData : PacketData
deriving DecidableEq, Repr

/-- The constructor `RecordTKEY( dom, algo, uint32_t incept, uint32_t expire, uint16_t m,
uint16_t err, PacketData k, PacketData other )`; the first parameter initialises `mDomain`,
the second `mAlgorithm`. -/
def RecordTKEY.new (dom algo : Domainname) (incept expire m err : Nat)
    (k other : PacketData) : RecordTKEY :=
  { mDomain := dom
    mAlgorithm := algo
    mInception := toUInt32 incept
    mExpiration := toUInt32 expire
    mMode := toUInt16 m
    mError := toUInt16 err
    mKey := k
    mOtherData := other }

/-- The method `RecordTKEY::type()`. -/
def RecordTKEY.type (_self : RecordTKEY) : Type_ := TYPE_TKEY

/-- The method `RecordTKEY::clone()`: `return new RecordTKEY( mDomain, mDomain, mInception,
mExpiration, mMode, mError, mKey, mOtherData );`. -/
def RecordTKEY.clone (self : RecordTKEY) : RecordTKEY :=
  RecordTKEY.new self.mDomain self.mDomain self.mInception self.mExpiration self.mMode
    self.mError self.mKey self.mOtherData

/-- The members hold values of their declared widths. -/
def RecordTKEY.WellTyped (r : RecordTKEY) : Prop :=
  r.mInception < 2 ^ 32 ∧ r.mExpiration < 2 ^ 32 ∧ r.mMode < 2 ^ 16 ∧ r.mError < 2 ^ 16

/-- The class `RecordA`: `uint32_t mSinAddr;`. -/
structure RecordA where
  mSinAddr : Nat
deriving DecidableEq, Repr

/-- The method `RecordA::type()`. -/
def RecordA.type (_self : RecordA) : Type_ := TYPE_A

/-- The class `RecordAAAA`: `uint8_t mSinAddr[ 16 ];`. -/
structure RecordAAAA where
  mSinAddr : List Nat
deriving DecidableEq, Repr

/-- The method `RecordAAAA::type()`. -/
def RecordAAAA.type (_self : RecordAAAA) : Type_ := TYPE_AAAA

/-- The class `RecordWKS`: `uint32_t mSinAddr; uint8_t mProtocol; std::vector<Type> mBitmap;`. -/
structure RecordWKS where
  mSinAddr : Nat
  mProtocol : Nat
  mBitmap : List Type_
deriving DecidableEq, Repr

/-- The method `RecordWKS::type()`. -/
def RecordWKS.type (_self : RecordWKS) : Type_ := TYPE_WKS

/-- The method `RecordWKS::size()`: `return sizeof( mSinAddr );`, the size of a
`uint32_t`. -/
def RecordWKS.size (_self : RecordWKS) : Nat := 4

/-- The class `RecordNS`: `Domainname mDomainname;`. -/
structure RecordNS where
  mDomainname : Domainname
deriving DecidableEq, Repr

/-- The method `RecordNS::type()`. -/
def RecordNS.type (_self : RecordNS) : Type_ := TYPE_NS

/-- The class `RecordMX`: `uint16_t mPriority; Domainname mDomainname;`. -/
structure RecordMX where
  mPriority : Nat
  mDomainname : Domainname
deriving DecidableEq, Repr

/-- The method `RecordMX::type()`. -/
def RecordMX.type (_self : RecordMX) : Type_ := TYPE_MX

/-- The class `RecordTXT`: `std::vector<std::string> mData;`. -/
structure RecordTXT where
  mData : List String
deriving DecidableEq, Repr

/-- The method `RecordTXT::type()`. -/
def RecordTXT.type (_self : RecordTXT) : Type_ := TYPE_TXT

/-- The class `RecordSPF`: `std::vector<std::string> data;`. -/
structure RecordSPF where
  data : List String
deriving DecidableEq, Repr

/-- The method `RecordSPF::type()`. -/
def RecordSPF.type (_self : RecordSPF) : Type_ := TYPE_SPF

/-- The class `RecordCNAME`: `Domainname mDomainname;`. -/
structure RecordCNAME where
  mDomainname : Domainname
deriving DecidableEq, Repr

/-- The method `RecordCNAME::type()`. -/
def RecordCNAME.type (_self : RecordCNAME) : Type_ := TYPE_CNAME

/-- The class `RecordNAPTR` with its six members. -/
structure RecordNAPTR where
  mOrder : Nat
  mPreference : Nat
  mFlags : String
  mServices : String
  mRegexp : String
  mReplacement : Domainname
deriving DecidableEq, Repr

/-- The method `RecordNAPTR::type()`. -/
def RecordNAPTR.type (_self : RecordNAPTR) : Type_ := TYPE_NAPTR

/-- The class `RecordDNAME`: `Domainname mDomainname;`. -/
structure RecordDNAME where
  mDomainname : Domainname
deriving DecidableEq, Repr

/-- The method `RecordDNAME::type()`. -/
def RecordDNAME.type (_self : RecordDNAME) : Type_ := TYPE_DNAME

/-- The class `RecordSOA` with its seven members. -/
structure RecordSOA where
  mMName : Domainname
  mRName : Domainname
  mSerial : Nat
  mRefresh : Nat
  mRetry : Nat
  mExpire : Nat
  mMinimum : Nat
deriving DecidableEq, Repr

/-- The method `RecordSOA::type()`. -/
def RecordSOA.type (_self : RecordSOA) : Type_ := TYPE_SOA

/-- The struct `APLEntry`. -/
structure APLEntry where
  mAddressFamily : Nat
  mPrefix : Nat
  mNegation : Bool
  mAFD : PacketData
deriving DecidableEq, Repr

/-- The class `RecordAPL`: `std::vector<APLEntry> mAPLEntries;`. -/
structure RecordAPL where
  mAPLEntries : List APLEntry
deriving DecidableEq, Repr

/-- The constructor `RecordAPL( const std::vector<APLEntry> &in_apls )`. -/
def RecordAPL.new (in_apls : List APLEntry) : RecordAPL := { mAPLEntries := in_apls }

/-- The method `RecordAPL::type()`. -/
def RecordAPL.type (_self : RecordAPL) : Type_ := TYPE_APL

/-- The method `RecordAPL::clone()`: `return new RecordAPL( mAPLEntries );`. -/
def RecordAPL.clone (self : RecordAPL) : RecordAPL := RecordAPL.new self.mAPLEntries

/-- The class `RecordCAA`: `uint8_t mFlag; std::string mTag; std::string mValue;`. -/
structure RecordCAA where
  mFlag : Nat
  mTag : String
  mValue : String
deriving DecidableEq, Repr

/-- The method `RecordCAA::type()`. -/
def RecordCAA.type (_self : RecordCAA) : Type_ := TYPE_CAA

/-- The method `RecordCAA::clone()`: `return new RecordCAA( *this );`, the implicit
member-wise copy. -/
def RecordCAA.clone (self : RecordCAA) : RecordCAA := self

/-- The class `RecordSRV`: three `uint16_t` members and the target name. -/
structure RecordSRV where
  mPriority : Nat
  mWeight : Nat
  mPort : Nat
  mTarget : Domainname
deriving DecidableEq, Repr

/-- The method `RecordSRV::type()`. -/
def RecordSRV.type (_self : RecordSRV) : Type_ := TYPE_SRV

/-- The class `RecordDS`: `uint16_t mKeyTag; uint8_t mAlgorithm; uint8_t mDigestType;
PacketData mDigest;`. -/
structure RecordDS where
  mKeyTag : Nat
  mAlgorithm : Nat
  mDigestType : Nat
  mDigest : PacketData
deriving DecidableEq, Repr

/-- The constructor `RecordDS( uint16_t tag, uint8_t alg, uint8_t dtype, const PacketData &d )`. -/
def RecordDS.new (tag alg dtype : Nat) (d : PacketData) : RecordDS :=
  { mKeyTag := toUInt16 tag, mAlgorithm := toUInt8 alg, mDigestType := toUInt8 dtype,
    mDigest := d }

/-- The method `RecordDS::type()`. -/
def RecordDS.type (_self : RecordDS) : Type_ := TYPE_DS

/-- The method `RecordDS::clone()`. -/
def RecordDS.clone (self : RecordDS) : RecordDS :=
  RecordDS.new self.mKeyTag self.mAlgorithm self.mDigestType self.mDigest

/-- The class `RecordNSEC3` with its six members. -/
structure RecordNSEC3 where
  mHashAlgorithm : Nat
  mFlag : Nat
  mIteration : Nat
  mSalt : PacketData
  mNextHash : PacketData
  mBitmaps : NSECBitmapField
deriving DecidableEq, Repr

/-- The method `RecordNSEC3::type()`. -/
def RecordNSEC3.type (_self : RecordNSEC3) : Type_ := TYPE_NSEC3

/-- The class `RecordNSEC3PARAM` with its four members. -/
structure RecordNSEC3PARAM where
  mHashAlgorithm : Nat
  mFlag : Nat
  mIteration : Nat
  mSalt : PacketData
deriving DecidableEq, Repr

/-- The method `RecordNSEC3PARAM::type()`. -/
def RecordNSEC3PARAM.type (_self : RecordNSEC3PARAM) : Type_ := TYPE_NSEC3PARAM

/-- The class `RecordTLSA`: three `uint8_t` members and the data. -/
structure RecordTLSA where
  mUsage : Nat
  mSelector : Nat
  mMatchingType : Nat
  mData : List Nat
deriving DecidableEq, Repr

/-- The constructor `RecordTLSA( Usage usage, Selector selector, MatchingType type, data )`. -/
def RecordTLSA.new (usage selector type : Nat) (data : List Nat) : RecordTLSA :=
  { mUsage := toUInt8 usage, mSelector := toUInt8 selector, mMatchingType := toUInt8 type,
    mData := data }

/-- The method `RecordTLSA::type()`. -/
def RecordTLSA.type (_self : RecordTLSA) : Type_ := TYPE_TLSA

/-- The method `RecordTLSA::clone()`. -/
def RecordTLSA.clone (self : RecordTLSA) : RecordTLSA :=
  RecordTLSA.new self.mUsage self.mSelector self.mMatchingType self.mData

/-- An object reached through an `OptPseudoRROption *`: one case per option class, holding
the members of the class. -/
inductive OptPseudoRROption where
  | RAWOption (mCode : Nat) (mData : PacketData)
  | NSIDOption (mNSID : String)
  | ClientSubnetOption (mFamily mSourcePrefix mScopePrefix : Nat) (mAddress : String)
  | CookieOption (mClientCookie mServerCookie : PacketData)
  | TCPKeepaliveOption (mTimeout : Nat)
  | KeyTagOption (mTags : List Nat)
  | ExtendedErrorOption (mErrorCode : Nat) (mExtraText : String)
  | ErrorReportingOption (mAgentDomain : Domainname)
deriving DecidableEq, Repr

/-- The virtual call `option->code()`, with the value each class returns. -/
def OptPseudoRROption.code : OptPseudoRROption → Nat
  | .RAWOption mCode _ => toUInt16 mCode
  | .NSIDOption _ => OPT_NSID
  | .ClientSubnetOption _ _ _ _ => OPT_CLIENT_SUBNET
  | .CookieOption _ _ => OPT_COOKIE
  | .TCPKeepaliveOption _ => OPT_TCP_KEEPALIVE
  | .KeyTagOption _ => OPT_KEY_TAG
  | .ExtendedErrorOption _ _ => OPT_EXTEND_ERROR
  | .ErrorReportingOption _ => OPT_EXTEND_ERROR

/-- The virtual call `option->clone()`: each class builds a new object of its own class
from its members, through its constructor. -/
def OptPseudoRROption.clone : OptPseudoRROption → OptPseudoRROption
  | .RAWOption mCode mData => .RAWOption (toUInt16 mCode) mData
  | .NSIDOption mNSID => .NSIDOption mNSID
  | .ClientSubnetOption fam source scope addr =>
    .ClientSubnetOption (toUInt16 fam) (toUInt8 source) (toUInt8 scope) addr
  | .CookieOption client server => .CookieOption client server
  | .TCPKeepaliveOption timeout => .TCPKeepaliveOption (toUInt16 timeout)
  | .KeyTagOption tags => .KeyTagOption tags
  | .ExtendedErrorOption c text => .ExtendedErrorOption (toUInt16 c) text
  | .ErrorReportingOption agent_domain => .ErrorReportingOption agent_domain

/-- The class `RecordOptionsData`: `std::vector<OptPseudoRROptPtr> mOptions;`. -/
structure RecordOptionsData where
  mOptions : List OptPseudoRROption
deriving DecidableEq, Repr

/-- The constructor `RecordOptionsData( const std::vector<OptPseudoRROptPtr> &in_options )`:
every option is cloned and appended. -/
def RecordOptionsData.new (in_options : List OptPseudoRROption) : RecordOptionsData :=
  { mOptions := in_options.map OptPseudoRROption.clone }

/-- The method `RecordOptionsData::type()`. -/
def RecordOptionsData.type (_self : RecordOptionsData) : Type_ := TYPE_OPT

/-- The method `RecordOptionsData::clone()`: `return new RecordOptionsData( mOptions );`. -/
def RecordOptionsData.clone (self : RecordOptionsData) : RecordOptionsData :=
  RecordOptionsData.new self.mOptions

/-- The class `RecordTSIGData` with its eight public members; `mSignedTime` is a
`uint64_t`. -/
structure RecordTSIGData where
  mKeyName : Domainname
  mAlgorithm : Domainname
  mSignedTime : Nat
  mFudge : Nat
  mMAC : PacketData
  mOriginalID : Nat
  mError : Nat
  mOther : PacketData
deriving DecidableEq, Repr

/-- The constructor `RecordTSIGData( in_key_name, in_algo, uint64_t in_signed_time,
uint16_t in_fudge, in_mac, uint16_t in_original_id, uint16_t in_error, in_other )`. -/
def RecordTSIGData.new (in_key_name in_algo : Domainname) (in_signed_time in_fudge : Nat)
    (in_mac : PacketData) (in_original_id in_error : Nat) (in_other : PacketData) :
    RecordTSIGData :=
  { mKeyName := in_key_name
    mAlgorithm := in_algo
    mSignedTime := in_signed_time % 2 ^ 64
    mFudge := toUInt16 in_fudge
    mMAC := in_mac
    mOriginalID := toUInt16 in_original_id
    mError := toUInt16 in_error
    mOther := in_other }

/-- The method `RecordTSIGData::type()`. -/
def RecordTSIGData.type (_self : RecordTSIGData) : Type_ := TYPE_TSIG

/-- The method `RecordTSIGData::clone()`. -/
def RecordTSIGData.clone (self : RecordTSIGData) : RecordTSIGData :=
  RecordTSIGData.new self.mKeyName self.mAlgorithm self.mSignedTime self.mFudge self.mMAC
    self.mOriginalID self.mError self.mOther

/-- The constructors that `dns.hpp` declares without a body; each `clone()` below that
needs one calls it here. -/
structure Constructors where
  /-- The constructor `RecordA( uint32_t in_sin_addr )`. -/
  newA : Nat → RecordA
  /-- The constructor `RecordAAAA( const uint8_t *sin_addr )`. -/
  newAAAA : List Nat → RecordAAAA
  /-- The constructor `RecordWKS( uint32_t sin_addr, uint8_t proto, const std::vector<Type> & )`. -/
  newWKS : Nat → Nat → List Type_ → RecordWKS
  /-- The constructor `RecordNS( const Domainname &name )`. -/
  newNS : Domainname → RecordNS
  /-- The constructor `RecordMX( uint16_t pri, const Domainname &name )`. -/
  newMX : Nat → Domainname → RecordMX
  /-- The constructor `RecordTXT( const std::vector<std::string> &data )`. -/
  newTXT : List String → RecordTXT
  /-- The constructor `RecordSPF( const std::vector<std::string> &data )`. -/
  newSPF : List String → RecordSPF
  /-- The constructor `RecordCNAME( const Domainname &name )`. -/
  newCNAME : Domainname → RecordCNAME
  /-- The constructor `RecordNAPTR( in_order, in_preference, in_flags, in_services,
  in_regexp, in_replacement )`. -/
  newNAPTR : Nat → Nat → String → String → String → Domainname → RecordNAPTR
  /-- The constructor `RecordDNAME( const Domainname &name )`. -/
  newDNAME : Domainname → RecordDNAME
  /-- The constructor `RecordSOA( mname, rname, serial, refresh, retry, expire, minimum )`. -/
  newSOA : Domainname → Domainname → Nat → Nat → Nat → Nat → Nat → RecordSOA
  /-- The constructor `RecordSRV( uint16_t pri, uint16_t weight, uint16_t port, target )`. -/
  newSRV : Nat → Nat → Nat → Domainname → RecordSRV
  /-- The constructor `RecordNSEC3( algo, flag, iteration, salt, next_hash,
  const std::vector<Type> &bitmaps )`. -/
  newNSEC3 : Nat → Nat → Nat → PacketData → PacketData → List Type_ → RecordNSEC3
  /-- The constructor `RecordNSEC3PARAM( algo, flag, iteration, salt )`. -/
  newNSEC3PARAM : Nat → Nat → Nat → PacketData → RecordNSEC3PARAM

/-- The method `RecordA::clone()`: `return new RecordA( mSinAddr );`. -/
def RecordA.clone (K : Constructors) (self : RecordA) : RecordA := K.newA self.mSinAddr

/-- The method `RecordAAAA::clone()`: `return new RecordAAAA( mSinAddr );`. -/
def RecordAAAA.clone (K : Constructors) (self : RecordAAAA) : RecordAAAA :=
  K.newAAAA self.mSinAddr

/-- The method `RecordWKS::clone()`. -/
def RecordWKS.clone (K : Constructors) (self : RecordWKS) : RecordWKS :=
  K.newWKS self.mSinAddr self.mProtocol self.mBitmap

/-- The method `RecordNS::clone()`. -/
def RecordNS.clone (K : Constructors) (self : RecordNS) : RecordNS := K.newNS self.mDomainname

/-- The method `RecordMX::clone()`. -/
def RecordMX.clone (K : Constructors) (self : RecordMX) : RecordMX :=
  K.newMX self.mPriority self.mDomainname

/-- The method `RecordTXT::clone()`. -/
def RecordTXT.clone (K : Constructors) (self : RecordTXT) : RecordTXT := K.newTXT self.mData

/-- The method `RecordSPF::clone()`. -/
def RecordSPF.clone (K : Constructors) (self : RecordSPF) : RecordSPF := K.newSPF self.data

/-- The method `RecordCNAME::clone()`. -/
def RecordCNAME.clone (K : Constructors) (self : RecordCNAME) : RecordCNAME :=
  K.newCNAME self.mDomainname

/-- The method `RecordNAPTR::clone()`. -/
def RecordNAPTR.clone (K : Constructors) (self : RecordNAPTR) : RecordNAPTR :=
  K.newNAPTR self.mOrder self.mPreference self.mFlags self.mServices self.mRegexp
    self.mReplacement

/-- The method `RecordDNAME::clone()`. -/
def RecordDNAME.clone (K : Constructors) (self : RecordDNAME) : RecordDNAME :=
  K.newDNAME self.mDomainname

/-- The method `RecordSOA::clone()`. -/
def RecordSOA.clone (K : Constructors) (self : RecordSOA) : RecordSOA :=
  K.newSOA self.mMName self.mRName self.mSerial self.mRefresh self.mRetry self.mExpire
    self.mMinimum

/-- The method `RecordSRV::clone()`. -/
def RecordSRV.clone (K : Constructors) (self : RecordSRV) : RecordSRV :=
  K.newSRV self.mPriority self.mWeight self.mPort self.mTarget

/-- The method `RecordNSEC3::clone()`: `return new RecordNSEC3( mHashAlgorithm, mFlag,
mIteration, mSalt, mNextHash, mBitmaps.getTypes() );`. -/
def RecordNSEC3.clone (N : NSECCollaborators) (K : Constructors) (self : RecordNSEC3) :
    RecordNSEC3 :=
  K.newNSEC3 self.mHashAlgorithm self.mFlag self.mIteration self.mSalt self.mNextHash
    (N.getTypes self.mBitmaps)

/-- The method `RecordNSEC3PARAM::clone()`. -/
def RecordNSEC3PARAM.clone (K : Constructors) (self : RecordNSEC3PARAM) : RecordNSEC3PARAM :=
  K.newNSEC3PARAM self.mHashAlgorithm self.mFlag self.mIteration self.mSalt

/-- An object reached through an `RDATA *`: one case per concrete class of `dns.hpp`. A
virtual call dispatches on the case. -/
inductive RDATA where
  | Raw (r : RecordRaw)
  | A (r : RecordA)
  | AAAA (r : RecordAAAA)
  | WKS (r : RecordWKS)
  | NS (r : RecordNS)
  | MX (r : RecordMX)
  | TXT (r : RecordTXT)
  | SPF (r : RecordSPF)
  | CNAME (r : RecordCNAME)
  | NAPTR (r : RecordNAPTR)
  | DNAME (r : RecordDNAME)
  | SOA (r : RecordSOA)
  | APL (r : RecordAPL)
  | CAA (r : RecordCAA)
  | SRV (r : RecordSRV)
  | RRSIG (r : RecordRRSIG)
  | DNSKEY (r : RecordDNSKEY)
  | DS (r : RecordDS)
  | NSEC (r : RecordNSEC)
  | NSEC3 (r : RecordNSEC3)
  | NSEC3PARAM (r : RecordNSEC3PARAM)
  | TLSA (r : RecordTLSA)
  | KEY (r : RecordKEY)
  | SIG (r : RecordSIG)
  | NXT (r : RecordNXT)
  | OptionsData (r : RecordOptionsData)
  | TKEY (r : RecordTKEY)
  | TSIGData (r : RecordTSIGData)
deriving DecidableEq, Repr

/-- The virtual call `rdata->type()`. -/
def RDATA.type : RDATA → Type_
  | .Raw r => r.type
  | .A r => r.type
  | .AAAA r => r.type
  | .WKS r => r.type
  | .NS r => r.type
  | .MX r => r.type
  | .TXT r => r.type
  | .SPF r => r.type
  | .CNAME r => r.type
  | .NAPTR r => r.type
  | .DNAME r => r.type
  | .SOA r => r.type
  | .APL r => r.type
  | .CAA r => r.type
  | .SRV r => r.type
  | .RRSIG r => r.type
  | .DNSKEY r => r.type
  | .DS r => r.type
  | .NSEC r => r.type
  | .NSEC3 r => r.type
  | .NSEC3PARAM r => r.type
  | .TLSA r => r.type
  | .KEY r => r.type
  | .SIG r => r.type
  | .NXT r => r.type
  | .OptionsData r => r.type
  | .TKEY r => r.type
  | .TSIGData r => r.type

/-- The virtual call `rdata->clone()`. -/
def RDATA.clone (N : NSECCollaborators) (K : Constructors) : RDATA → RDATA
  | .Raw r => .Raw r.clone
  | .A r => .A (r.clone K)
  | .AAAA r => .AAAA (r.clone K)
  | .WKS r => .WKS (r.clone K)
  | .NS r => .NS (r.clone K)
  | .MX r => .MX (r.clone K)
  | .TXT r => .TXT (r.clone K)
  | .SPF r => .SPF (r.clone K)
  | .CNAME r => .CNAME (r.clone K)
  | .NAPTR r => .NAPTR (r.clone K)
  | .DNAME r => .DNAME (r.clone K)
  | .SOA r => .SOA (r.clone K)
  | .APL r => .APL r.clone
  | .CAA r => .CAA r.clone
  | .SRV r => .SRV (r.clone K)
  | .RRSIG r => .RRSIG r.clone
  | .DNSKEY r => .DNSKEY r.clone
  | .DS r => .DS r.clone
  | .NSEC r => .NSEC r.clone
  | .NSEC3 r => .NSEC3 (r.clone N K)
  | .NSEC3PARAM r => .NSEC3PARAM (r.clone K)
  | .TLSA r => .TLSA r.clone
  | .KEY r => .KEY r.clone
  | .SIG r => .SIG r.clone
  | .NXT r => .NXT (r.clone N)
  | .OptionsData r => .OptionsData r.clone
  | .TKEY r => .TKEY r.clone
  | .TSIGData r => .TSIGData r.clone

/-! ## `dns.hpp`: sizes of RDATA

`Domainname::size()` is declared in `domainname.hpp`; the size functions below take it as
the parameter `nameSize`. -/

/-- The method `RecordRRSIG::size()`: the sum `2 + 1 + 1 + 4 + 4 + 4 + 2 + mSigner.size() +
mSignature.size()`, returned as a `uint32_t`. -/
def RecordRRSIG.size (nameSize : Domainname → Nat) (self : RecordRRSIG) : Nat :=
  toUInt32 (2 + 1 + 1 + 4 + 4 + 4 + 2 + nameSize self.mSigner + self.mSignature.length)

/-- The method `RecordDNSKEY::size()`: `sizeof( mFlag ) + sizeof( mAlgorithm ) + 1 +
mPublicKey.size()`, returned as a `uint32_t`. -/
def RecordDNSKEY.size (self : RecordDNSKEY) : Nat :=
  toUInt32 (2 + 1 + 1 + self.mPublicKey.length)

/-- The method `size()` of a `RecordKEY`, inherited from `RecordDNSKEY`. -/
def RecordKEY.size (self : RecordKEY) : Nat := self.toRecordDNSKEY.size

/-! ## `dns.hpp`: `QuestionSectionEntry`, `ResourceRecord`, `MessageInfo` -/

/-- The struct `QuestionSectionEntry`. -/
structure QuestionSectionEntry where
  mDomainname : Domainname
  mType : Nat
  mClass : Nat
deriving DecidableEq, Repr

/-- The struct `ResourceRecord`; `mRData` is a shared pointer, `none` when it is null. -/
structure ResourceRecord where
  mDomainname : Domainname
  mType : Nat
  mClass : Nat
  mTTL : Int
  mRData : Option RDATA
deriving DecidableEq, Repr

/-- The copy constructor `ResourceRecord( const ResourceRecord &entry )`: the four plain
members are copied; `mRData` is the clone of `entry.mRData` when that pointer is set and
stays the null pointer otherwise. -/
def ResourceRecord.copy (N : NSECCollaborators) (K : Constructors) (entry : ResourceRecord) :
    ResourceRecord :=
  { mDomainname := entry.mDomainname
    mType := entry.mType
    mClass := entry.mClass
    mTTL := entry.mTTL
    mRData :=
      match entry.mRData with
      | some r => some (r.clone N K)
      | none => none }

/-- The copy assignment `ResourceRecord &operator=( const ResourceRecord &rhs )`, giving
the new value of `*this`. -/
def ResourceRecord.assign (N : NSECCollaborators) (K : Constructors)
    (self rhs : ResourceRecord) : ResourceRecord :=
  let s1 := { self with mDomainname := rhs.mDomainname }
  let s2 := { s1 with mType := rhs.mType }
  let s3 := { s2 with mClass := rhs.mClass }
  let s4 := { s3 with mTTL := rhs.mTTL }
  match rhs.mRData with
  | some r => { s4 with mRData := some (r.clone N K) }
  | none => { s4 with mRData := none }

/-- The struct `OptPseudoRecord`; `mOptions` is an `RDATAPtr`. -/
structure OptPseudoRecord where
  mDomainname : Domainname
  mPayloadSize : Nat
  mRCode : Nat
  mVersion : Nat
  mDOBit : Bool
  mOptions : Option RDATA
deriving DecidableEq, Repr

/-- The struct `MessageInfo`, members in declaration order. -/
structure MessageInfo where
  mID : Nat
  mQueryResponse : Nat
  mOpcode : Nat
  mAuthoritativeAnswer : Bool
  mTruncation : Bool
  mRecursionDesired : Bool
  mRecursionAvailable : Bool
  mCheckingDisabled : Bool
  mZeroField : Bool
  mAuthenticData : Bool
  mResponseCode : Nat
  mIsEDNS0 : Bool
  mIsTSIG : Bool
  mOptPseudoRR : OptPseudoRecord
  mTSIGRR : RecordTSIGData
  mQuestionSection : List QuestionSectionEntry
  mAnswerSection : List ResourceRecord
  mAuthoritySection : List ResourceRecord
  mAdditionalSection : List ResourceRecord
deriving DecidableEq, Repr

/-- The method `bool isEDNS0() const`. -/
def MessageInfo.isEDNS0 (self : MessageInfo) : Bool := self.mIsEDNS0

/-- The call `std::vector<ResourceRecord>::push_back( e )`: the new last element is
copy-constructed from `e`. `ResourceRecord` declares a copy constructor and so has no move
constructor: when the vector has to move to larger storage (`grow`), the elements it holds
are copy-constructed into it as well. -/
def pushBackRecord (N : NSECCollaborators) (K : Constructors) (grow : Bool)
    (v : List ResourceRecord) (e : ResourceRecord) : List ResourceRecord :=
  (if grow then v.map (ResourceRecord.copy N K) else v) ++ [ResourceRecord.copy N K e]

/-- The method `pushQuestionSection( const QuestionSectionEntry &e )`; the entry has the
implicit member-wise copy and move. -/
def MessageInfo.pushQuestionSection (self : MessageInfo) (e : QuestionSectionEntry) :
    MessageInfo :=
  { self with mQuestionSection := self.mQuestionSection ++ [e] }

/-- The method `pushAnswerSection( const ResourceRecord &e )`. -/
def MessageInfo.pushAnswerSection (N : NSECCollaborators) (K : Constructors) (grow : Bool)
    (self : MessageInfo) (e : ResourceRecord) : MessageInfo :=
  { self with mAnswerSection := pushBackRecord N K grow self.mAnswerSection e }

/-- The method `pushAuthoritySection( const ResourceRecord &e )`. -/
def MessageInfo.pushAuthoritySection (N : NSECCollaborators) (K : Constructors) (grow : Bool)
    (self : MessageInfo) (e : ResourceRecord) : MessageInfo :=
  { self with mAuthoritySection := pushBackRecord N K grow self.mAuthoritySection e }

/-- The method `pushAdditionalSection( const ResourceRecord &e )`. -/
def MessageInfo.pushAdditionalSection (N : NSECCollaborators) (K : Constructors)
    (grow : Bool) (self : MessageInfo) (e : ResourceRecord) : MessageInfo :=
  { self with mAdditionalSection := pushBackRecord N K grow self.mAdditionalSection e }

/-- The method `clearQuestionSection()`. -/
def MessageInfo.clearQuestionSection (self : MessageInfo) : MessageInfo :=
  { self with mQuestionSection := [] }

/-- The method `clearAnswerSection()`. -/
def MessageInfo.clearAnswerSection (self : MessageInfo) : MessageInfo :=
  { self with mAnswerSection := [] }

/-- The method `clearAuthoritySection()`. -/
def MessageInfo.clearAuthoritySection (self : MessageInfo) : MessageInfo :=
  { self with mAuthoritySection := [] }

/-- The method `clearAdditionalSection()`. -/
def MessageInfo.clearAdditionalSection (self : MessageInfo) : MessageInfo :=
  { self with mAdditionalSection := [] }

/-! ## `dns_server.cpp`: the size check of `startUDPServer`

The server file names the message type `PacketInfo` and its members `truncation`,
`opt_pseudo_rr.payload_size` and `clearAdditionalInfomationSection()`; they are the
`MessageInfo` members `mTruncation`, `mOptPseudoRR.mPayloadSize` and
`clearAdditionalSection()` of `dns.hpp`. `getMessageSize()` is declared without a body and
is a parameter. -/

/-- Lines 89-95 of `startUDPServer`: the value of `requested_max_payload_size` (a
`uint32_t` that receives the 16-bit payload size unchanged) and the query after the
statement, whose advertised size is lowered to 4096 when it was larger. -/
def requestedMaxPayloadSize (query : MessageInfo) : Nat × MessageInfo :=
  let requested_max_payload_size : Nat := 512
  if query.isEDNS0 ∧ query.mOptPseudoRR.mPayloadSize > 512 then
    let requested_max_payload_size := query.mOptPseudoRR.mPayloadSize
    if query.mOptPseudoRR.mPayloadSize > 4096 then
      (requested_max_payload_size,
        { query with mOptPseudoRR := { query.mOptPseudoRR with mPayloadSize := 4096 } })
    else
      (requested_max_payload_size, query)
  else
    (requested_max_payload_size, query)

/-- Lines 98-104 of `startUDPServer`: the response after the size test. -/
def truncateIfTooLarge (getMessageSize : MessageInfo → Nat)
    (requested_max_payload_size : Nat) (response_info : MessageInfo) : MessageInfo :=
  if getMessageSize response_info > requested_max_payload_size then
    let r1 := { response_info with mTruncation := true }
    let r2 := r1.clearAnswerSection
    let r3 := r2.clearAuthoritySection
    r3.clearAdditionalSection
  else
    response_info

/-- Lines 89-104 of `startUDPServer`: from the query and the generated response to the
response handed to `generateMessage`. -/
def udpSizeStep (getMessageSize : MessageInfo → Nat) (query response_info : MessageInfo) :
    MessageInfo :=
  truncateIfTooLarge getMessageSize (requestedMaxPayloadSize query).1 response_info

/-! ## `dns.hpp`: `get_bytes`

Memory is a function from addresses to octets; a packet is the range of addresses from its
begin up to, and not including, its end. Multi-octet values are read in the byte order of
the machine, little-endian as for the header. -/

/-- The value of the `n` octets of memory starting at address `pos`. -/
def readOctets (mem : Nat → Nat) : Nat → Nat → Nat
  | _, 0 => 0
  | pos, n + 1 => mem pos % 256 + 256 * readOctets mem (pos + 1) n

/-- The template `Type get_bytes( const uint8_t **pos )` for a type of `sizeofType` octets:
`Type v = *reinterpret_cast<const Type *>( *pos ); *pos += sizeof( Type ); return v;`. The
result is the value read and the new value of `*pos`. -/
def get_bytes (sizeofType : Nat) (mem : Nat → Nat) (pos : Nat) : Nat × Nat :=
  (readOctets mem pos sizeofType, pos + sizeofType)

/-- The read `read` reads the octet at address `a`: its result depends on that octet, that
is, for some memory, storing some other content at address `a` and nowhere else changes the
result. -/
def readsAddress (read : (Nat → Nat) → Nat) (a : Nat) : Prop :=
  ∃ (mem : Nat → Nat) (v : Nat), read (Function.update mem a v) ≠ read mem

/-! ## `zonesigner.hpp`: the enumerations -/

/-- The enumeration `KeyType`. -/
inductive KeyType where
  | KSK
  | ZSK
deriving DecidableEq, Repr

/-- The value of an enumerator of `KeyType`. -/
def KeyType.value : KeyType → Nat
  | .KSK => 257
  | .ZSK => 256

/-- The enumeration `HashAlgorithm`. -/
inductive HashAlgorithm where
  | DNSSEC_SHA1
  | DNSSEC_SHA256
  | DNSSEC_SHA384
deriving DecidableEq, Repr

/-- The value of an enumerator of `HashAlgorithm`. -/
def HashAlgorithm.value : HashAlgorithm → Nat
  | .DNSSEC_SHA1 => 1
  | .DNSSEC_SHA256 => 2
  | .DNSSEC_SHA384 => 4

/-- The enumeration `SignAlgorithm`. -/
inductive SignAlgorithm where
  | DNSSEC_RSASHA1
  | DNSSEC_ECDSASHA256
  | DNSSEC_ECDSASHA384
deriving DecidableEq, Repr

/-- The value of an enumerator of `SignAlgorithm`. -/
def SignAlgorithm.value : SignAlgorithm → Nat
  | .DNSSEC_RSASHA1 => 5
  | .DNSSEC_ECDSASHA256 => 13
  | .DNSSEC_ECDSASHA384 => 14

/-! ## `dns.hpp`: the layout of `PacketHeaderField`

The struct is read and written through a pointer into the packet, so what matters is where
each member lies in memory. The layout rule is the one of the System V and Itanium C++
ABIs on a little-endian machine: members are placed in declaration order; a bit-field takes
the next free bits, counted from the least-significant bit of the storage unit of its
declared type, and moves to the next unit only when it would otherwise straddle a unit
boundary; any other member is aligned to its size. -/

/-- One member declaration: the size in octets of the declared type and, for a bit-field
`T name : w;`, the width `w`. -/
structure MemberDecl where
  typeBytes : Nat
  bits : Option Nat
deriving DecidableEq, Repr

/-- The place of a member: the position of its least-significant bit, where bit `p` of the
object is bit `p % 8` of octet `p / 8`, and its width in bits. -/
structure Slot where
  pos : Nat
  width : Nat
deriving DecidableEq, Repr

/-- The least multiple of `unit` that is not below `pos`. -/
def alignUp (pos unit : Nat) : Nat := (pos + unit - 1) / unit * unit

/-- The width in bits of a member: the declared width of a bit-field, the size of the type
otherwise. -/
def MemberDecl.width (m : MemberDecl) : Nat := m.bits.getD (8 * m.typeBytes)

/-- The bit position given to a member when `pos` is the first free bit. -/
def MemberDecl.place (m : MemberDecl) (pos : Nat) : Nat :=
  match m.bits with
  | none => alignUp pos (8 * m.typeBytes)
  | some w =>
    if pos / (8 * m.typeBytes) = (pos + w - 1) / (8 * m.typeBytes) then pos
    else alignUp pos (8 * m.typeBytes)

/-- The slots of the members of a struct, in declaration order, starting at bit `pos`. -/
def allocate : Nat → List MemberDecl → List Slot
  | _, [] => []
  | pos, m :: ms => ⟨m.place pos, m.width⟩ :: allocate (m.place pos + m.width) ms

/-- The first free bit after the last member. -/
def allocateEnd : Nat → List MemberDecl → Nat
  | pos, [] => pos
  | pos, m :: ms => allocateEnd (m.place pos + m.width) ms

/-- The alignment of a struct in octets: the largest alignment among its members. -/
def structAlign (ms : List MemberDecl) : Nat := (ms.map (fun m => m.typeBytes)).foldr max 1

/-- The value of `sizeof` for a struct with the given members. -/
def sizeofStruct (ms : List MemberDecl) : Nat :=
  alignUp (allocateEnd 0 ms) (8 * structAlign ms) / 8

/-- The object representation, as one little-endian number, after each member has been
assigned its value (truncated to the width of the member). -/
def storeMembers : List Slot → List Nat → Nat
  | s :: ss, v :: vs => ((v % 2 ^ s.width) <<< s.pos) + storeMembers ss vs
  | _, _ => 0

/-- Octet `i` of an object representation. -/
def octetOf (image : Nat) (i : Nat) : Nat := (image >>> (8 * i)) % 256

/-- The object representation made of the given octets, first octet first. -/
def imageOfOctets : List Nat → Nat
  | [] => 0
  | b :: bs => b % 256 + (imageOfOctets bs) <<< 8

/-- The value read from a member. -/
def loadMember (image : Nat) (s : Slot) : Nat := (image >>> s.pos) % 2 ^ s.width

/-- The struct `PacketHeaderField`, members in declaration order. -/
structure PacketHeaderField where
  id : Nat
  recursion_desired : Nat
  truncation : Nat
  authoritative_answer : Nat
  opcode : Nat
  query_response : Nat
  response_code : Nat
  checking_disabled : Nat
  authentic_data : Nat
  zero_field : Nat
  recursion_available : Nat
  question_count : Nat
  answer_count : Nat
  authority_count : Nat
  additional_infomation_count : Nat
deriving DecidableEq, Repr

/-- The member declarations of `PacketHeaderField`: `uint16_t id;`, then the bit-fields
`uint8_t recursion_desired : 1;` to `uint8_t query_response : 1;`, then
`uint8_t response_code : 4;` to `uint8_t recursion_available : 1;`, then the four 16-bit
counts. -/
def PacketHeaderField.decls : List MemberDecl :=
  [ ⟨2, none⟩,
    ⟨1, some 1⟩, ⟨1, some 1⟩, ⟨1, some 1⟩, ⟨1, some 4⟩, ⟨1, some 1⟩,
    ⟨1, some 4⟩, ⟨1, some 1⟩, ⟨1, some 1⟩, ⟨1, some 1⟩, ⟨1, some 1⟩,
    ⟨2, none⟩, ⟨2, none⟩, ⟨2, none⟩, ⟨2, none⟩ ]

/-- The values of the members, in declaration order. -/
def PacketHeaderField.values (h : PacketHeaderField) : List Nat :=
  [ h.id, h.recursion_desired, h.truncation, h.authoritative_answer, h.opcode,
    h.query_response, h.response_code, h.checking_disabled, h.authentic_data, h.zero_field,
    h.recursion_available, h.question_count, h.answer_count, h.authority_count,
    h.additional_infomation_count ]

/-- The object representation of a header. -/
def PacketHeaderField.image (h : PacketHeaderField) : Nat :=
  storeMembers (allocate 0 PacketHeaderField.decls) h.values

/-- The octets of a header in memory, which are the octets on the wire. -/
def PacketHeaderField.octets (h : PacketHeaderField) : List Nat :=
  (List.range (sizeofStruct PacketHeaderField.decls)).map (octetOf h.image)

/-- The header read from the octets of a packet, member by member. -/
def PacketHeaderField.ofOctets (bs : List Nat) : PacketHeaderField :=
  match (allocate 0 PacketHeaderField.decls).map (loadMember (imageOfOctets bs)) with
  | [a, b, c, d, e, f, g, h, i, j, k, l, m, n, o] =>
    ⟨a, b, c, d, e, f, g, h, i, j, k, l, m, n, o⟩
  | _ => ⟨0, 0, 0, 0, 0, 0, 0, 0, 0, 0, 0, 0, 0, 0, 0⟩

/-- The flag members of a header: every one-bit member is 0 or 1 and the two four-bit
members are below 16. -/
def PacketHeaderField.FlagsInRange (h : PacketHeaderField) : Prop :=
  h.query_response < 2 ∧ h.opcode < 16 ∧ h.authoritative_answer < 2 ∧ h.truncation < 2 ∧
    h.recursion_desired < 2 ∧ h.recursion_available < 2 ∧ h.zero_field < 2 ∧
    h.authentic_data < 2 ∧ h.checking_disabled < 2 ∧ h.response_code < 16

/-! ## The NSEC bitmap codec

`dns.hpp` declares `NSECBitmapField` and `NSECBitmapField::Window` with their members but
the bodies of their methods are not in the sources. The data are the ones of the header;
the methods are modelled from sections 3 and 4.3 of the specification. -/

/-- Modelled from the spec: `NSECBitmapField::typeToWindowIndex` (body missing), "window
index = type div 256", returned as the `uint8_t` the header declares. -/
def NSECBitmapField.typeToWindowIndex (t : Type_) : Nat := toUInt8 (t / 256)

/-- Modelled from the spec: `Window::typeToBitmapIndex` (body missing), "bit = type mod
256", returned as the `uint8_t` the header declares. -/
def Window.typeToBitmapIndex (t : Type_) : Nat := toUInt8 (t % 256)

/-- Modelled from the spec: `Window::add` (body missing); a window holds a set of present
types, so a type already present is not added again. -/
def Window.add (self : Window) (t : Type_) : Window :=
  if t ∈ self.mTypes then self else { self with mTypes := self.mTypes ++ [t] }

/-- Modelled from the spec: the update of `std::map<uint8_t, Window> mWindows` done by
`NSECBitmapField::add`: the type goes to the window of index `k`, created if absent, and
the windows stay in ascending index order. -/
def NSECBitmapField.addTo : List (Nat × Window) → Nat → Type_ → List (Nat × Window)
  | [], k, t => [(k, (Window.mk k []).add t)]
  | (k', w) :: rest, k, t =>
    if k = k' then (k', w.add t) :: rest
    else if k < k' then (k, (Window.mk k []).add t) :: (k', w) :: rest
    else (k', w) :: NSECBitmapField.addTo rest k t

/-- Modelled from the spec: `NSECBitmapField::add( Type )` (body missing): types are
grouped by window index. -/
def NSECBitmapField.add (self : NSECBitmapField) (t : Type_) : NSECBitmapField :=
  { mWindows := NSECBitmapField.addTo self.mWindows (NSECBitmapField.typeToWindowIndex t) t }

/-- The types held by a list of windows, window after window. -/
def typesOfWindows (m : List (Nat × Window)) : List Type_ :=
  (m.map (fun e => e.2.mTypes)).flatten

/-- Modelled from the spec: `NSECBitmapField::getTypes()` (body missing): the present
types, windows in ascending index order. -/
def NSECBitmapField.getTypes (self : NSECBitmapField) : List Type_ :=
  typesOfWindows self.mWindows

/-- Modelled from the spec: `NSECBitmapField::addWindow( const Window & )` (body missing):
every type of the window becomes present in the field. -/
def NSECBitmapField.addWindow (self : NSECBitmapField) (win : Window) : NSECBitmapField :=
  win.mTypes.foldl NSECBitmapField.add self

/-- The field obtained from the empty one by `add` of each type of `ts` in turn. -/
def NSECBitmapField.addAll (ts : List Type_) : NSECBitmapField :=
  ts.foldl NSECBitmapField.add { mWindows := [] }

/-- Modelled from the spec: bit `k` of the bitmap of a window, 1 when a type of the window
has bitmap index `k`. -/
def Window.bitOf (self : Window) (k : Nat) : Nat :=
  if ∃ t ∈ self.mTypes, Window.typeToBitmapIndex t = k then 1 else 0

/-- Modelled from the spec: octet `i` of the bitmap of a window, "MSB-first within each
byte": bit `8 * i` is the bit of weight 128. -/
def Window.octet (self : Window) (i : Nat) : Nat :=
  128 * self.bitOf (8 * i) + 64 * self.bitOf (8 * i + 1) + 32 * self.bitOf (8 * i + 2) +
    16 * self.bitOf (8 * i + 3) + 8 * self.bitOf (8 * i + 4) + 4 * self.bitOf (8 * i + 5) +
    2 * self.bitOf (8 * i + 6) + self.bitOf (8 * i + 7)

/-- The highest bitmap index among the types of a window. -/
def Window.maxBit (self : Window) : Nat :=
  self.mTypes.foldr (fun t m => max (Window.typeToBitmapIndex t) m) 0

/-- Modelled from the spec: `Window::getWindowSize()` (body missing): the number of bitmap
octets, "trimmed to the last non-zero byte (minimum 1 byte per window)". -/
def Window.getWindowSize (self : Window) : Nat := self.maxBit / 8 + 1

/-- Modelled from the spec: the bitmap octets of a window. -/
def Window.bitmap (self : Window) : List Nat :=
  (List.range self.getWindowSize).map self.octet

/-- Modelled from the spec: `Window::outputWireFormat` (body missing): the octets
`[window_index(1), byte_length(1), bitmap_bytes]`. -/
def Window.outputWireFormat (self : Window) : List Nat :=
  toUInt8 self.mIndex :: self.getWindowSize :: self.bitmap

/-- The encodings of a list of windows, one after the other. -/
def encodeWindows (m : List (Nat × Window)) : List Nat :=
  (m.map (fun e => e.2.outputWireFormat)).flatten

/-- Modelled from the spec: `NSECBitmapField::outputWireFormat` (body missing): every
window in ascending index order. -/
def NSECBitmapField.outputWireFormat (self : NSECBitmapField) : List Nat :=
  encodeWindows self.mWindows

/-- Modelled from the spec: the types whose bit is set in one bitmap octet `b`, the bit of
weight 128 standing for the type `base`. -/
def bitsOfOctet (base b : Nat) : List Type_ :=
  ((List.range 8).filter (fun j => (b / 2 ^ (7 - j)) % 2 = 1)).map (fun j => base + j)

/-- Modelled from the spec: the types whose bit is set in a sequence of bitmap octets. -/
def typesOfBitmap : Nat → List Nat → List Type_
  | _, [] => []
  | base, b :: bs => bitsOfOctet base b ++ typesOfBitmap (base + 8) bs

/-- Modelled from the spec: `Window::parse` (body missing): the window of the given index
read from its bitmap octets. -/
def Window.parse (index : Nat) (bitmap : List Nat) : Window :=
  { mIndex := index, mTypes := typesOfBitmap (256 * index) bitmap }

/-- Modelled from the spec: the loop of `NSECBitmapField::parse` (body missing) over the
octets that remain: a window index, a length, that many bitmap octets. A length of 0 or
above 32 is rejected (`MalformedBitmap`), and so is a window cut short. `fuel` bounds the
number of windows read. -/
def NSECBitmapField.parseAux : Nat → List Nat → NSECBitmapField → Option NSECBitmapField
  | _, [], f => some f
  | 0, _ :: _, _ => none
  | _ + 1, [_], _ => none
  | fuel + 1, index :: len :: rest, f =>
    if len = 0 ∨ len > 32 then none
    else if rest.length < len then none
    else NSECBitmapField.parseAux fuel (rest.drop len)
      (f.addWindow (Window.parse index (rest.take len)))

/-- Modelled from the spec: `NSECBitmapField::parse` (body missing) over the octets of the
bitmap field; one unit of fuel per octet suffices, as every window takes at least three. -/
def NSECBitmapField.parse (bs : List Nat) : Option NSECBitmapField :=
  NSECBitmapField.parseAux bs.length bs { mWindows := [] }

/-- The windows that `parse` builds from the encodings of the windows `m`, added to `f`. -/
def decodeAll (m : List (Nat × Window)) (f : NSECBitmapField) : NSECBitmapField :=
  m.foldl (fun acc e => acc.addWindow (Window.parse e.1 e.2.bitmap)) f

/-- The invariant of the windows of a field built by `add`: every window is stored under
its own index, the index is an octet, and the types of the window belong to it. -/
def WindowsOk (m : List (Nat × Window)) : Prop :=
  ∀ e ∈ m, e.2.mIndex = e.1 ∧ e.1 < 256 ∧ ∀ t ∈ e.2.mTypes, t / 256 = e.1

/-! ## `dns.hpp`: `size()` and `size( OffsetDB &, uint32_t begin )` of every RDATA class

`OffsetDB` comes from a header that is not in the sources and is a type parameter. The
`size()` methods and the six `size( offset_db, begin )` methods that `dns.hpp` declares
without a body are parameters. -/

/-- The size methods declared without a body, and `Domainname::size()`. -/
structure SizeCollaborators (OffsetDB : Type) where
  /-- The method `Domainname::size()`. -/
  nameSize : Domainname → Nat
  /-- The method `RecordTXT::size()`. -/
  sizeTXT : RecordTXT → Nat
  /-- The method `RecordSPF::size()`. -/
  sizeSPF : RecordSPF → Nat
  /-- The method `RecordNAPTR::size()`. -/
  sizeNAPTR : RecordNAPTR → Nat
  /-- The method `RecordSOA::size()`. -/
  sizeSOA : RecordSOA → Nat
  /-- The method `RecordAPL::size()`. -/
  sizeAPL : RecordAPL → Nat
  /-- The method `RecordCAA::size()`. -/
  sizeCAA : RecordCAA → Nat
  /-- The method `RecordNSEC::size()`. -/
  sizeNSEC : RecordNSEC → Nat
  /-- The method `RecordNSEC3::size()`. -/
  sizeNSEC3 : RecordNSEC3 → Nat
  /-- The method `RecordNSEC3PARAM::size()`. -/
  sizeNSEC3PARAM : RecordNSEC3PARAM → Nat
  /-- The method `RecordTLSA::size()`. -/
  sizeTLSA : RecordTLSA → Nat
  /-- The method `RecordOptionsData::size()`. -/
  sizeOptionsData : RecordOptionsData → Nat
  /-- The method `RecordTKEY::size()`. -/
  sizeTKEY : RecordTKEY → Nat
  /-- The method `RecordTSIGData::size()`. -/
  sizeTSIGData : RecordTSIGData → Nat
  /-- The method `RecordNS::size( OffsetDB &offset_db, uint32_t begin )`. -/
  sizeAtNS : RecordNS → OffsetDB → Nat → Nat
  /-- The method `RecordMX::size( OffsetDB &offset_db, uint32_t begin )`. -/
  sizeAtMX : RecordMX → OffsetDB → Nat → Nat
  /-- The method `RecordCNAME::size( OffsetDB &offset_db, uint32_t begin )`. -/
  sizeAtCNAME : RecordCNAME → OffsetDB → Nat → Nat
  /-- The method `RecordDNAME::size( OffsetDB &offset_db, uint32_t begin )`. -/
  sizeAtDNAME : RecordDNAME → OffsetDB → Nat → Nat
  /-- The method `RecordSOA::size( OffsetDB &offset_db, uint32_t begin )`. -/
  sizeAtSOA : RecordSOA → OffsetDB → Nat → Nat
  /-- The method `RecordSRV::size( OffsetDB &offset_db, uint32_t begin )`. -/
  sizeAtSRV : RecordSRV → OffsetDB → Nat → Nat

/-- The method `RecordA::size()`: `return sizeof( mSinAddr );`, a `uint32_t`. -/
def RecordA.size (_self : RecordA) : Nat := 4

/-- The method `RecordAAAA::size()`: `return sizeof( mSinAddr );`, an array of 16 octets. -/
def RecordAAAA.size (_self : RecordAAAA) : Nat := 16

/-- The method `RecordNS::size()`: `return mDomainname.size();`. -/
def RecordNS.size (nameSize : Domainname → Nat) (self : RecordNS) : Nat :=
  toUInt32 (nameSize self.mDomainname)

/-- The method `RecordMX::size()`: `return sizeof( mPriority ) + mDomainname.size();`. -/
def RecordMX.size (nameSize : Domainname → Nat) (self : RecordMX) : Nat :=
  toUInt32 (2 + nameSize self.mDomainname)

/-- The method `RecordCNAME::size()`: `return mDomainname.size();`. -/
def RecordCNAME.size (nameSize : Domainname → Nat) (self : RecordCNAME) : Nat :=
  toUInt32 (nameSize self.mDomainname)

/-- The method `RecordDNAME::size()`: `return mDomainname.size();`. -/
def RecordDNAME.size (nameSize : Domainname → Nat) (self : RecordDNAME) : Nat :=
  toUInt32 (nameSize self.mDomainname)

/-- The method `RecordSRV::size()`: `return sizeof( mPriority ) + sizeof( mWeight ) +
sizeof( mPort ) + mTarget.size();`. -/
def RecordSRV.size (nameSize : Domainname → Nat) (self : RecordSRV) : Nat :=
  toUInt32 (2 + 2 + 2 + nameSize self.mTarget)

/-- The method `RecordDS::size()`: `return sizeof( mKeyTag ) + sizeof( mAlgorithm ) +
sizeof( mDigestType ) + mDigest.size();`. -/
def RecordDS.size (self : RecordDS) : Nat :=
  toUInt32 (2 + 1 + 1 + self.mDigest.length)

/-- The virtual call `rdata->size()`. `RecordKEY`, `RecordSIG` and `RecordNXT` do not
override `size()` and run the method of their base class. -/
def RDATA.size {OffsetDB : Type} (S : SizeCollaborators OffsetDB) : RDATA → Nat
  | .Raw r => r.size
  | .A r => r.size
  | .AAAA r => r.size
  | .WKS r => r.size
  | .NS r => r.size S.nameSize
  | .MX r => r.size S.nameSize
  | .TXT r => S.sizeTXT r
  | .SPF r => S.sizeSPF r
  | .CNAME r => r.size S.nameSize
  | .NAPTR r => S.sizeNAPTR r
  | .DNAME r => r.size S.nameSize
  | .SOA r => S.sizeSOA r
  | .APL r => S.sizeAPL r
  | .CAA r => S.sizeCAA r
  | .SRV r => r.size S.nameSize
  | .RRSIG r => r.size S.nameSize
  | .DNSKEY r => r.size
  | .DS r => r.size
  | .NSEC r => S.sizeNSEC r
  | .NSEC3 r => S.sizeNSEC3 r
  | .NSEC3PARAM r => S.sizeNSEC3PARAM r
  | .TLSA r => S.sizeTLSA r
  | .KEY r => r.toRecordDNSKEY.size
  | .SIG r => r.toRecordRRSIG.size S.nameSize
  | .NXT r => S.sizeNSEC r.toRecordNSEC
  | .OptionsData r => S.sizeOptionsData r
  | .TKEY r => S.sizeTKEY r
  | .TSIGData r => S.sizeTSIGData r

/-- The virtual call `rdata->size( offset_db, begin )`. The classes with an inline body
have `return size();`, a virtual call on the same object; the six others are declared
only. `RecordKEY`, `RecordSIG` and `RecordNXT` run the method of their base class. -/
def RDATA.sizeAt {OffsetDB : Type} (S : SizeCollaborators OffsetDB) (offset_db : OffsetDB)
    (begin_ : Nat) : RDATA → Nat
  | .Raw r => RDATA.size S (.Raw r)
  | .A r => RDATA.size S (.A r)
  | .AAAA r => RDATA.size S (.AAAA r)
  | .WKS r => RDATA.size S (.WKS r)
  | .NS r => S.sizeAtNS r offset_db begin_
  | .MX r => S.sizeAtMX r offset_db begin_
  | .TXT r => RDATA.size S (.TXT r)
  | .SPF r => RDATA.size S (.SPF r)
  | .CNAME r => S.sizeAtCNAME r offset_db begin_
  | .NAPTR r => RDATA.size S (.NAPTR r)
  | .DNAME r => S.sizeAtDNAME r offset_db begin_
  | .SOA r => S.sizeAtSOA r offset_db begin_
  | .APL r => RDATA.size S (.APL r)
  | .CAA r => RDATA.size S (.CAA r)
  | .SRV r => S.sizeAtSRV r offset_db begin_
  | .RRSIG r => RDATA.size S (.RRSIG r)
  | .DNSKEY r => RDATA.size S (.DNSKEY r)
  | .DS r => RDATA.size S (.DS r)
  | .NSEC r => RDATA.size S (.NSEC r)
  | .NSEC3 r => RDATA.size S (.NSEC3 r)
  | .NSEC3PARAM r => RDATA.size S (.NSEC3PARAM r)
  | .TLSA r => RDATA.size S (.TLSA r)
  | .KEY r => RDATA.size S (.KEY r)
  | .SIG r => RDATA.size S (.SIG r)
  | .NXT r => RDATA.size S (.NXT r)
  | .OptionsData r => RDATA.size S (.OptionsData r)
  | .TKEY r => RDATA.size S (.TKEY r)
  | .TSIGData r => RDATA.size S (.TSIGData r)

/-- The classes the claim sets apart: NS, CNAME, MX, SRV, SOA and DNAME. -/
def RDATA.embedsCompressibleName : RDATA → Bool
  | .NS _ => true
  | .CNAME _ => true
  | .MX _ => true
  | .SRV _ => true
  | .SOA _ => true
  | .DNAME _ => true
  | _ => false

/-- Size collaborators for evaluation: a name of `n` labels counts `n + 1` octets, every
size declared without a body is 7, and the compression-aware sizes are `begin + 1`. -/
def sampleSizes : SizeCollaborators Unit :=
  { nameSize := fun d => d.labels.length + 1
    sizeTXT := fun _ => 7
    sizeSPF := fun _ => 7
    sizeNAPTR := fun _ => 7
    sizeSOA := fun _ => 7
    sizeAPL := fun _ => 7
    sizeCAA := fun _ => 7
    sizeNSEC := fun _ => 7
    sizeNSEC3 := fun _ => 7
    sizeNSEC3PARAM := fun _ => 7
    sizeTLSA := fun _ => 7
    sizeOptionsData := fun _ => 7
    sizeTKEY := fun _ => 7
    sizeTSIGData := fun _ => 7
    sizeAtNS := fun _ _ b => b + 1
    sizeAtMX := fun _ _ b => b + 1
    sizeAtCNAME := fun _ _ b => b + 1
    sizeAtDNAME := fun _ _ b => b + 1
    sizeAtSOA := fun _ _ b => b + 1
    sizeAtSRV := fun _ _ b => b + 1 }

/-! ## `dns.hpp`: default construction of `OptPseudoRecord`, `RecordTSIGData`, `MessageInfo`

The conversion of a string to a `Domainname` is declared in `domainname.hpp` and is the
parameter `parseName`. A member that a constructor leaves without an initialiser keeps
whatever its storage held; that value is the parameter `indeterminate`. -/

/-- The constructor `OptPseudoRecord()`: `mDomainname( "." ), mPayloadSize( 1280 ),
mRCode( 0 ), mDOBit( false ), mOptions( RDATAPtr( new RecordOptionsData ) )`. The
initialiser list has no entry for `mVersion`, a `uint8_t`. -/
def OptPseudoRecord.construct (parseName : String → Domainname) (indeterminate : Nat) :
    OptPseudoRecord :=
  { mDomainname := parseName "."
    mPayloadSize := 1280
    mRCode := 0
    mVersion := toUInt8 indeterminate
    mDOBit := false
    mOptions := some (.OptionsData (RecordOptionsData.new [])) }

/-- The constructor `RecordTSIGData()` with every default argument: key name `""`,
algorithm `"HMAC-MD5.SIG-ALG.REG.INT"`, zeros and empty octet sequences. -/
def RecordTSIGData.construct (parseName : String → Domainname) : RecordTSIGData :=
  RecordTSIGData.new (parseName "") (parseName "HMAC-MD5.SIG-ALG.REG.INT") 0 0 [] 0 0 []

/-- The constructor `MessageInfo()`: the thirteen members of the initialiser list, the
default-constructed `mOptPseudoRR` and `mTSIGRR`, and four empty sections. -/
def MessageInfo.construct (parseName : String → Domainname) (indeterminate : Nat) :
    MessageInfo :=
  { mID := 0
    mQueryResponse := 0
    mOpcode := 0
    mAuthoritativeAnswer := false
    mTruncation := false
    mRecursionDesired := false
    mRecursionAvailable := false
    mCheckingDisabled := false
    mZeroField := false
    mAuthenticData := false
    mResponseCode := 0
    mIsEDNS0 := false
    mIsTSIG := false
    mOptPseudoRR := OptPseudoRecord.construct parseName indeterminate
    mTSIGRR := RecordTSIGData.construct parseName
    mQuestionSection := []
    mAnswerSection := []
    mAuthoritySection := []
    mAdditionalSection := [] }

/-- The method `bool isDNSSECOK() const`: `if ( mIsEDNS0 ) return mOptPseudoRR.mDOBit;
else return false;`. -/
def MessageInfo.isDNSSECOK (self : MessageInfo) : Bool :=
  if self.mIsEDNS0 then self.mOptPseudoRR.mDOBit else false

/-! ## `dns.hpp`: constants of `RecordDNSKEY` -/

/-- The constant `static const uint16_t SIGNED_KEY = 1 << 7;` of `RecordDNSKEY`. -/
def RecordDNSKEY.SIGNED_KEY : Nat := toUInt16 (1 <<< 7)

/-- The constant `static const uint16_t KSK = 1 << 8;` of `RecordDNSKEY`. -/
def RecordDNSKEY.KSK : Nat := toUInt16 (1 <<< 8)

/-- The constant `static const uint16_t ZSK = 0;` of `RecordDNSKEY`. -/
def RecordDNSKEY.ZSK : Nat := toUInt16 0

/-! ## `dns.hpp`: a response code through the header field -/

/-- The value read from `response_code` after `c` has been stored in that member of the
header `h` and the header has gone through its octets. -/
def responseCodeRoundTrip (h : PacketHeaderField) (c : ResponseCode) : Nat :=
  (PacketHeaderField.ofOctets ({ h with response_code := c }).octets).response_code

/-! ## `dns_server.cpp`: the TSIG branch of `startUDPServer` and the test of `startTCPServer`

As for the size check, the message type is `MessageInfo`: the server file's `tsig` and
`question_section[ 0 ].q_type` are `mIsTSIG` and `mQuestionSection[ 0 ].mType`.
`generateResponse` is declared in a header that is not in the sources and is a
parameter. -/

/-- The value of `TSIGInfo tsig_info` after lines 28-38 of `verifyTSIGQuery`, for the
table entry `tsig_key` found under the key name of the query. -/
def tsigInfoOf (X : Collaborators) (query : PacketInfo) (tsig_key : TSIGKey) : TSIGInfo :=
  { name := X.toString query.tsig_rr.key_name
    key := tsig_key.key
    algorithm := tsig_key.algorithm
    signed_time := query.tsig_rr.signed_time
    fudge := query.tsig_rr.fudge
    mac := query.tsig_rr.mac
    mac_size := query.tsig_rr.mac_size
    original_id := query.tsig_rr.original_id
    error := query.tsig_rr.error
    other := query.tsig_rr.other }

/-- The method `DNSServer::generateTSIGErrorResponse( query, rcode )`:
`PacketInfo response; return response;`. -/
def DNSServer.generateTSIGErrorResponse (parseName : String → Domainname)
    (indeterminate : Nat) (_query : MessageInfo) (_rcode : ResponseCode) : MessageInfo :=
  MessageInfo.construct parseName indeterminate

/-- What one turn of the loop of `startUDPServer` has built when it reaches
`generateMessage`: the local `response_info` of the inner block of lines 79-81, if that
block ran (it is destroyed at the end of the block), and the `response_info` of line 84
after the size check, which is the message handed to `generateMessage`. -/
structure UDPTurn where
  tsig_error_response : Option MessageInfo
  response_info : MessageInfo
deriving DecidableEq, Repr

/-- Lines 77-104 of `startUDPServer`; `rcode` is the value `verifyTSIGQuery` returns when
it is called, that is, when the query carries a TSIG record. -/
def udpTurn (parseName : String → Domainname) (indeterminate : Nat)
    (generateResponse : MessageInfo → Bool → MessageInfo)
    (getMessageSize : MessageInfo → Nat) (rcode : ResponseCode) (query : MessageInfo) :
    UDPTurn :=
  let tsig_error_response : Option MessageInfo :=
    if query.mIsTSIG then
      if rcode ≠ NO_ERROR then
        some (DNSServer.generateTSIGErrorResponse parseName indeterminate query rcode)
      else none
    else none
  let response_info := generateResponse query false
  { tsig_error_response := tsig_error_response
    response_info := udpSizeStep getMessageSize query response_info }

/-- The two branches of lines 147-169 of `startTCPServer`. -/
inductive TCPBranch where
  | sendZone
  | respond
deriving DecidableEq, Repr

/-- Line 147 of `startTCPServer`: `query.question_section[ 0 ].q_type == dns::TYPE_AXFR`.
The result is `none` when index 0 is outside the vector, where `operator[]` has no
defined behaviour. -/
def tcpBranch (query : MessageInfo) : Option TCPBranch :=
  match query.mQuestionSection[0]? with
  | none => none
  | some q => some (if q.mType = TYPE_AXFR then .sendZone else .respond)

/-! ## Sample values -/

/-- A TKEY resource record whose RDATA has the name `key.example` and the algorithm
`HMAC-MD5.SIG-ALG.REG.INT`. -/
def sampleTKEYRecord : ResourceRecord :=
  { mDomainname := ⟨["key", "example"]⟩
    mType := TYPE_TKEY
    mClass := 255
    mTTL := 0
    mRData := some (.TKEY (RecordTKEY.new ⟨["key", "example"]⟩
      ⟨["HMAC-MD5", "SIG-ALG", "REG", "INT"]⟩ 10 20 3 0 [1] [2])) }

/-- A query message for `example.com A IN` with empty answer, authority and additional
sections. -/
def sampleMessage : MessageInfo :=
  { mID := 1
    mQueryResponse := 0
    mOpcode := 0
    mAuthoritativeAnswer := false
    mTruncation := false
    mRecursionDesired := true
    mRecursionAvailable := false
    mCheckingDisabled := false
    mZeroField := false
    mAuthenticData := false
    mResponseCode := 0
    mIsEDNS0 := false
    mIsTSIG := false
    mOptPseudoRR :=
      { mDomainname := ⟨[]⟩, mPayloadSize := 1280, mRCode := 0, mVersion := 0,
        mDOBit := false, mOptions := some (.OptionsData ⟨[]⟩) }
    mTSIGRR := RecordTSIGData.new ⟨[]⟩ ⟨["HMAC-MD5", "SIG-ALG", "REG", "INT"]⟩ 0 0 [] 0 0 []
    mQuestionSection := [⟨⟨["example", "com"]⟩, TYPE_A, 1⟩]
    mAnswerSection := []
    mAuthoritySection := []
    mAdditionalSection := [] }

/-! ## Theorems -/

theorem mapFind_eq_none (m : List (String × TSIGKey)) (name : String)
    (h : ∀ e ∈ m, e.1 ≠ name) : mapFind m name = none := by
  induction m with
  | nil => rfl
  | cons e rest ih =>
    obtain ⟨k, v⟩ := e
    have hk : k ≠ name := h (k, v) (List.mem_cons_self _ _)
    have hrest : ∀ e ∈ rest, e.1 ≠ name := fun e he => h e (List.mem_cons_of_mem _ he)
    simp [mapFind, hk, ih hrest]

theorem mapFind_append_self (m : List (String × TSIGKey)) (name : String) (key : TSIGKey)
    (h : mapFind m name = none) : mapFind (m ++ [(name, key)]) name = some key := by
  induction m with
  | nil => simp [mapFind]
  | cons e rest ih =>
    obtain ⟨k, v⟩ := e
    by_cases hk : k = name
    · simp [mapFind, hk] at h
    · simp only [mapFind, hk, if_false] at h
      simp [mapFind, hk, ih h]

theorem mapFind_mapInsert_isSome (m : List (String × TSIGKey)) (name : String)
    (key : TSIGKey) : (mapFind (mapInsert m name key) name).isSome = true := by
  unfold mapInsert
  cases h : mapFind m name with
  | none => simp [mapFind_append_self m name key h]
  | some v => simp [h]

/-- Once the key is found the result is decided by the time test and the verifier. -/
theorem verifyTSIGQuery_of_found (X : Collaborators) (now : Int) (self : DNSServer)
    (query : PacketInfo) (message : WireFormat) (k : TSIGKey)
    (hk : mapFind self.mNameToKey (X.toString query.tsig_rr.key_name) = some k) :
    DNSServer.verifyTSIGQuery X now self query message =
      if query.tsig_rr.signed_time > toUInt64 (now - query.tsig_rr.fudge) ∧
          query.tsig_rr.signed_time < toUInt64 (now + query.tsig_rr.fudge) then BADTIME
      else if X.verifyTSIGResourceRecord
          { name := X.toString query.tsig_rr.key_name
            key := k.key
            algorithm := k.algorithm
            signed_time := query.tsig_rr.signed_time
            fudge := query.tsig_rr.fudge
            mac := query.tsig_rr.mac
            mac_size := query.tsig_rr.mac_size
            original_id := query.tsig_rr.original_id
            error := query.tsig_rr.error
            other := query.tsig_rr.other } query message then NO_ERROR
      else BADSIG := by
  unfold DNSServer.verifyTSIGQuery
  rw [hk]

theorem toUInt64_of_nonneg (x : Int) (h0 : 0 ≤ x) (h1 : x < 2 ^ 64) :
    toUInt64 x = x.toNat := by
  unfold toUInt64
  rw [Int.emod_eq_of_lt h0 h1]

/-- What the code does with the time window, for a clock and a fudge that do not wrap:
with the key found, `BADTIME` is returned exactly when the signed time lies strictly
between `now - fudge` and `now + fudge`. -/
theorem verifyTSIGQuery_BADTIME_iff_strictly_inside (X : Collaborators) (now : Int)
    (self : DNSServer) (query : PacketInfo) (message : WireFormat) (k : TSIGKey)
    (hk : mapFind self.mNameToKey (X.toString query.tsig_rr.key_name) = some k)
    (hlo : (query.tsig_rr.fudge : Int) ≤ now) (hhi : now + query.tsig_rr.fudge < 2 ^ 64) :
    DNSServer.verifyTSIGQuery X now self query message = BADTIME ↔
      (now - query.tsig_rr.fudge < query.tsig_rr.signed_time ∧
        (query.tsig_rr.signed_time : Int) < now + query.tsig_rr.fudge) := by
  rw [verifyTSIGQuery_of_found X now self query message k hk]
  have hf : (0 : Int) ≤ query.tsig_rr.fudge := Int.ofNat_nonneg _
  rw [toUInt64_of_nonneg (now - query.tsig_rr.fudge) (by omega) (by omega),
    toUInt64_of_nonneg (now + query.tsig_rr.fudge) (by omega) hhi]
  constructor
  · intro h
    split_ifs at h with h1 h2
    · omega
    · exact absurd h (by decide)
    · exact absurd h (by decide)
  · intro h
    rw [if_pos (by omega)]

/-- C1 (evaluation at the failing inputs). The key `key.` is in the table and the clock
reads 1700000000. A query signed at 1700000000 with fudge 300, inside the window
[1699999700, 1700000300], is answered `BADTIME`; a query signed at 1700001000 with the same
fudge, outside the window, is not answered `BADTIME` (it is answered `NO_ERROR`). -/
theorem C1_verifyTSIGQuery_badtime_inverted :
    mapFind (sampleServer "key.").mNameToKey (renderName ⟨["key"]⟩) = some sampleKey ∧
    ((1700000000 : Int) - 300 ≤ 1700000000 ∧ (1700000000 : Int) ≤ 1700000000 + 300) ∧
    DNSServer.verifyTSIGQuery (fixedCollaborators true) 1700000000 (sampleServer "key.")
      (sampleQuery ["key"] 1700000000 300) [] = BADTIME ∧
    ((1700000000 : Int) + 300 < 1700001000) ∧
    DNSServer.verifyTSIGQuery (fixedCollaborators true) 1700000000 (sampleServer "key.")
      (sampleQuery ["key"] 1700001000 300) [] = NO_ERROR ∧
    NO_ERROR ≠ BADTIME := by
  decide

/-- C2 (evaluation at the failing input). The key is in the table, the signed time
1699999990 lies within [1699999700, 1700000300] and the verifier accepts the MAC, yet
`verifyTSIGQuery` returns `BADTIME`, not `NO_ERROR`. -/
theorem C2_verifyTSIGQuery_valid_query_rejected :
    mapFind (sampleServer "key.").mNameToKey (renderName ⟨["key"]⟩) = some sampleKey ∧
    ((1700000000 : Int) - 300 ≤ 1699999990 ∧ (1699999990 : Int) ≤ 1700000000 + 300) ∧
    (fixedCollaborators true).verifyTSIGResourceRecord
      { name := "key.", key := sampleKey.key, algorithm := sampleKey.algorithm,
        signed_time := 1699999990, fudge := 300, mac := [0xde, 0xad], mac_size := 2,
        original_id := 1, error := 0, other := [] }
      (sampleQuery ["key"] 1699999990 300) [] = true ∧
    DNSServer.verifyTSIGQuery (fixedCollaborators true) 1700000000 (sampleServer "key.")
      (sampleQuery ["key"] 1699999990 300) [] = BADTIME ∧
    BADTIME ≠ NO_ERROR := by
  decide

/-- C3. A query whose key name (as rendered by `toString`) equals no name of the key table
is answered `BADKEY`, whatever its signed time, fudge and MAC, whatever the clock reads and
whatever the verifier would say. -/
theorem C3_verifyTSIGQuery_unknown_key (X : Collaborators) (now : Int) (self : DNSServer)
    (query : PacketInfo) (message : WireFormat)
    (h : ∀ e ∈ self.mNameToKey, e.1 ≠ X.toString query.tsig_rr.key_name) :
    DNSServer.verifyTSIGQuery X now self query message = BADKEY := by
  unfold DNSServer.verifyTSIGQuery
  rw [mapFind_eq_none _ _ h]

/-- C3 (witness). The table holds only `other.`; a query for `key.` is answered `BADKEY`. -/
theorem C3_verifyTSIGQuery_unknown_key_witness :
    (∀ e ∈ (sampleServer "other.").mNameToKey,
      e.1 ≠ (fixedCollaborators true).toString (sampleQuery ["key"] 1700000300 300).tsig_rr.key_name) ∧
    DNSServer.verifyTSIGQuery (fixedCollaborators true) 1700000000 (sampleServer "other.")
      (sampleQuery ["key"] 1700000300 300) [] = BADKEY :=
  ⟨by decide, C3_verifyTSIGQuery_unknown_key (fixedCollaborators true) 1700000000
    (sampleServer "other.") (sampleQuery ["key"] 1700000300 300) [] (by decide)⟩

/-- C4 (evaluation at the failing input). The key is in the table, the signed time
1700000100 lies within [1699999700, 1700000300] and the verifier rejects the MAC, yet
`verifyTSIGQuery` returns `BADTIME`, not `BADSIG`. -/
theorem C4_verifyTSIGQuery_bad_mac_reported_as_badtime :
    mapFind (sampleServer "key.").mNameToKey (renderName ⟨["key"]⟩) = some sampleKey ∧
    ((1700000000 : Int) - 300 ≤ 1700000100 ∧ (1700000100 : Int) ≤ 1700000000 + 300) ∧
    (fixedCollaborators false).verifyTSIGResourceRecord
      { name := "key.", key := sampleKey.key, algorithm := sampleKey.algorithm,
        signed_time := 1700000100, fudge := 300, mac := [0xde, 0xad], mac_size := 2,
        original_id := 1, error := 0, other := [] }
      (sampleQuery ["key"] 1700000100 300) [] = false ∧
    DNSServer.verifyTSIGQuery (fixedCollaborators false) 1700000000 (sampleServer "key.")
      (sampleQuery ["key"] 1700000100 300) [] = BADTIME ∧
    BADTIME ≠ BADSIG := by
  decide

/-- With a table that holds one key, under the name `n`, every query whose rendered key
name is not exactly `n` is answered `BADKEY`, whatever `toString` is and however close the
two strings are. -/
theorem verifyTSIGQuery_single_key_other_name (X : Collaborators) (now : Int) (n : String)
    (k : TSIGKey) (query : PacketInfo) (message : WireFormat)
    (hne : n ≠ X.toString query.tsig_rr.key_name) :
    DNSServer.verifyTSIGQuery X now (DNSServer.addTSIGKey { mNameToKey := [] } n k) query
      message = BADKEY := by
  simp [DNSServer.verifyTSIGQuery, DNSServer.addTSIGKey, mapInsert, mapFind, hne]

/-- C5 (counterexample). A key registered with `addTSIGKey` under `Key.` is not found by a
query whose key name renders as `key.`, which differs from `Key.` only in the case of one
ASCII letter: the answer is `BADKEY`. The signed time is on the edge of the window, so no
other test interferes. -/
theorem C5_lookup_case_sensitive :
    sameUpToCase "Key." ((fixedCollaborators true).toString ⟨["key"]⟩) ∧
    DNSServer.verifyTSIGQuery (fixedCollaborators true) 1700000000
      (DNSServer.addTSIGKey { mNameToKey := [] } "Key." sampleKey)
      (sampleQuery ["key"] 1700000300 300) [] = BADKEY := by
  decide

/-- C5 (amended). Key lookup is by the exact string: after `addTSIGKey( n, k )`, on any
table, every query whose key name renders to exactly `n` finds a key, that is,
`verifyTSIGQuery` does not return `BADKEY`. -/
theorem C5_lookup_exact_name (X : Collaborators) (now : Int) (self : DNSServer)
    (n : String) (k : TSIGKey) (query : PacketInfo) (message : WireFormat)
    (h : X.toString query.tsig_rr.key_name = n) :
    DNSServer.verifyTSIGQuery X now (self.addTSIGKey n k) query message ≠ BADKEY := by
  have hfound := mapFind_mapInsert_isSome self.mNameToKey n k
  cases hf : mapFind (mapInsert self.mNameToKey n k) n with
  | none => rw [hf] at hfound; exact absurd hfound (by decide)
  | some v =>
    have hk : mapFind (self.addTSIGKey n k).mNameToKey (X.toString query.tsig_rr.key_name)
        = some v := by
      rw [h]; exact hf
    rw [verifyTSIGQuery_of_found X now _ query message v hk]
    split_ifs <;> decide

/-- C5 (witness of the amended claim). A key registered under `Key.` is found by a query
whose key name renders as `Key.`. -/
theorem C5_lookup_exact_name_witness :
    (fixedCollaborators true).toString (sampleQuery ["Key"] 1700000300 300).tsig_rr.key_name
      = "Key." ∧
    DNSServer.verifyTSIGQuery (fixedCollaborators true) 1700000000
      (DNSServer.addTSIGKey { mNameToKey := [] } "Key." sampleKey)
      (sampleQuery ["Key"] 1700000300 300) [] ≠ BADKEY :=
  ⟨by decide, C5_lookup_exact_name (fixedCollaborators true) 1700000000 { mNameToKey := [] }
    "Key." sampleKey (sampleQuery ["Key"] 1700000300 300) [] (by decide)⟩

/-! ### The header layout -/

theorem PacketHeaderField.allocate_decls :
    allocate 0 PacketHeaderField.decls =
      [⟨0, 16⟩, ⟨16, 1⟩, ⟨17, 1⟩, ⟨18, 1⟩, ⟨19, 4⟩, ⟨23, 1⟩, ⟨24, 4⟩, ⟨28, 1⟩, ⟨29, 1⟩,
        ⟨30, 1⟩, ⟨31, 1⟩, ⟨32, 16⟩, ⟨48, 16⟩, ⟨64, 16⟩, ⟨80, 16⟩] := by
  decide

theorem PacketHeaderField.sizeof_eq : sizeofStruct PacketHeaderField.decls = 12 := by
  decide

theorem PacketHeaderField.image_eq (h : PacketHeaderField) :
    h.image =
      h.id % 2 ^ 16 + (h.recursion_desired % 2) * 2 ^ 16 + (h.truncation % 2) * 2 ^ 17
        + (h.authoritative_answer % 2) * 2 ^ 18 + (h.opcode % 16) * 2 ^ 19
        + (h.query_response % 2) * 2 ^ 23 + (h.response_code % 16) * 2 ^ 24
        + (h.checking_disabled % 2) * 2 ^ 28 + (h.authentic_data % 2) * 2 ^ 29
        + (h.zero_field % 2) * 2 ^ 30 + (h.recursion_available % 2) * 2 ^ 31
        + (h.question_count % 2 ^ 16) * 2 ^ 32 + (h.answer_count % 2 ^ 16) * 2 ^ 48
        + (h.authority_count % 2 ^ 16) * 2 ^ 64
        + (h.additional_infomation_count % 2 ^ 16) * 2 ^ 80 := by
  unfold PacketHeaderField.image
  rw [PacketHeaderField.allocate_decls]
  simp only [PacketHeaderField.values, storeMembers, Nat.shiftLeft_eq]
  norm_num
  omega

theorem PacketHeaderField.ofOctets_eq (b0 b1 b2 b3 b4 b5 b6 b7 b8 b9 b10 b11 : Nat) :
    PacketHeaderField.ofOctets [b0, b1, b2, b3, b4, b5, b6, b7, b8, b9, b10, b11] =
      { id := b0 % 256 + b1 % 256 * 256
        recursion_desired := b2 % 2
        truncation := b2 / 2 % 2
        authoritative_answer := b2 / 4 % 2
        opcode := b2 / 8 % 16
        query_response := b2 / 128 % 2
        response_code := b3 % 16
        checking_disabled := b3 / 16 % 2
        authentic_data := b3 / 32 % 2
        zero_field := b3 / 64 % 2
        recursion_available := b3 / 128 % 2
        question_count := b4 % 256 + b5 % 256 * 256
        answer_count := b6 % 256 + b7 % 256 * 256
        authority_count := b8 % 256 + b9 % 256 * 256
        additional_infomation_count := b10 % 256 + b11 % 256 * 256 } := by
  unfold PacketHeaderField.ofOctets
  rw [PacketHeaderField.allocate_decls]
  simp only [List.map, loadMember, imageOfOctets, Nat.shiftLeft_eq,
    Nat.shiftRight_eq_div_pow]
  norm_num
  refine ⟨?_, ?_, ?_, ?_, ?_, ?_, ?_, ?_, ?_, ?_, ?_, ?_, ?_, ?_, ?_⟩ <;> omega

theorem flagOctet_third : ∀ qr < 2, ∀ op < 16, ∀ aa < 2, ∀ tc < 2, ∀ rd < 2,
    rd + 2 * tc + 4 * aa + 8 * op + 128 * qr =
      (qr <<< 7 ||| op <<< 3 ||| aa <<< 2 ||| tc <<< 1 ||| rd) := by
  decide

theorem flagOctet_fourth : ∀ ra < 2, ∀ z < 2, ∀ ad < 2, ∀ cd < 2, ∀ rc < 16,
    rc + 16 * cd + 32 * ad + 64 * z + 128 * ra =
      (ra <<< 7 ||| z <<< 6 ||| ad <<< 5 ||| cd <<< 4 ||| rc) := by
  decide

theorem PacketHeaderField.third_octet (h : PacketHeaderField)
    (hqr : h.query_response < 2) (hop : h.opcode < 16) (haa : h.authoritative_answer < 2)
    (htc : h.truncation < 2) (hrd : h.recursion_desired < 2) :
    h.octets[2]? = some (h.query_response <<< 7 ||| h.opcode <<< 3 |||
      h.authoritative_answer <<< 2 ||| h.truncation <<< 1 ||| h.recursion_desired) := by
  rw [← flagOctet_third _ hqr _ hop _ haa _ htc _ hrd]
  simp only [PacketHeaderField.octets, PacketHeaderField.sizeof_eq]
  simp [List.range_succ, octetOf, Nat.shiftRight_eq_div_pow, PacketHeaderField.image_eq]
  omega

theorem PacketHeaderField.fourth_octet (h : PacketHeaderField)
    (hra : h.recursion_available < 2) (hz : h.zero_field < 2) (had : h.authentic_data < 2)
    (hcd : h.checking_disabled < 2) (hrc : h.response_code < 16) :
    h.octets[3]? = some (h.recursion_available <<< 7 ||| h.zero_field <<< 6 |||
      h.authentic_data <<< 5 ||| h.checking_disabled <<< 4 ||| h.response_code) := by
  rw [← flagOctet_fourth _ hra _ hz _ had _ hcd _ hrc]
  simp only [PacketHeaderField.octets, PacketHeaderField.sizeof_eq]
  simp [List.range_succ, octetOf, Nat.shiftRight_eq_div_pow, PacketHeaderField.image_eq]
  omega

/-- C6. With bit-fields allocated from the least-significant bit in declaration order,
`PacketHeaderField` occupies 12 octets; for every header whose one-bit flags are 0 or 1,
whose opcode is below 16 and whose rcode is below 16, the third octet is
QR<<7 | Opcode<<3 | AA<<2 | TC<<1 | RD and the fourth is RA<<7 | Z<<6 | AD<<5 | CD<<4 | RCODE;
and twelve octets whose third and fourth are 01 00 are read as RD = 1 with QR, opcode, AA,
TC, RA, Z, AD, CD and rcode all 0, whatever the other ten octets are. -/
theorem C6_PacketHeaderField_layout (h : PacketHeaderField)
    (hr : h.FlagsInRange) (b0 b1 b4 b5 b6 b7 b8 b9 b10 b11 : Nat) :
    sizeofStruct PacketHeaderField.decls = 12 ∧
    h.octets.length = 12 ∧
    h.octets[2]? = some (h.query_response <<< 7 ||| h.opcode <<< 3 |||
      h.authoritative_answer <<< 2 ||| h.truncation <<< 1 ||| h.recursion_desired) ∧
    h.octets[3]? = some (h.recursion_available <<< 7 ||| h.zero_field <<< 6 |||
      h.authentic_data <<< 5 ||| h.checking_disabled <<< 4 ||| h.response_code) ∧
    (let p := PacketHeaderField.ofOctets [b0, b1, 0x01, 0x00, b4, b5, b6, b7, b8, b9, b10, b11]
     p.recursion_desired = 1 ∧ p.query_response = 0 ∧ p.opcode = 0 ∧
       p.authoritative_answer = 0 ∧ p.truncation = 0 ∧ p.recursion_available = 0 ∧
       p.zero_field = 0 ∧ p.authentic_data = 0 ∧ p.checking_disabled = 0 ∧
       p.response_code = 0) := by
  obtain ⟨hqr, hop, haa, htc, hrd, hra, hz, had, hcd, hrc⟩ := hr
  refine ⟨PacketHeaderField.sizeof_eq, ?_, PacketHeaderField.third_octet h hqr hop haa htc hrd,
    PacketHeaderField.fourth_octet h hra hz had hcd hrc, ?_⟩
  · simp [PacketHeaderField.octets, PacketHeaderField.sizeof_eq]
  · rw [PacketHeaderField.ofOctets_eq]
    exact ⟨rfl, rfl, rfl, rfl, rfl, rfl, rfl, rfl, rfl, rfl⟩

/-- C6 (witness). The header with id 0x1234, QR = 1, opcode 5, AA = 1, TC = 0, RD = 1,
RA = 1, Z = 0, AD = 1, CD = 0 and rcode 3 has flag octets ad a3, and the header octets
00 01 01 00 00 01 00 00 00 00 00 00 are read with RD = 1. -/
theorem C6_PacketHeaderField_layout_witness :
    (PacketHeaderField.mk 0x1234 1 0 1 5 1 3 0 1 0 1 1 0 0 0).FlagsInRange ∧
    (PacketHeaderField.mk 0x1234 1 0 1 5 1 3 0 1 0 1 1 0 0 0).octets[2]? = some 0xad ∧
    (PacketHeaderField.mk 0x1234 1 0 1 5 1 3 0 1 0 1 1 0 0 0).octets[3]? = some 0xa3 ∧
    (PacketHeaderField.ofOctets [0, 1, 1, 0, 0, 1, 0, 0, 0, 0, 0, 0]).recursion_desired = 1 :=
  have hr : (PacketHeaderField.mk 0x1234 1 0 1 5 1 3 0 1 0 1 1 0 0 0).FlagsInRange := by
    unfold PacketHeaderField.FlagsInRange; decide
  have h := C6_PacketHeaderField_layout
    (PacketHeaderField.mk 0x1234 1 0 1 5 1 3 0 1 0 1 1 0 0 0) hr 0 1 0 1 0 0 0 0 0 0
  ⟨hr, h.2.2.1, h.2.2.2.1, h.2.2.2.2.1⟩

/-! ### The RDATA classes -/

/-- What the constructor of `RecordRaw` keeps of a type code: its low octet. -/
theorem RecordRaw.type_new (t : Nat) (d : PacketData) :
    (RecordRaw.new t d).type = t % 256 := by
  show @Eq Nat (toUInt16 (toUInt8 t)) (t % 256)
  simp only [toUInt16, toUInt8, Nat.reducePow]
  omega

/-- A type code below 256 is kept, and the octets are kept verbatim. -/
theorem RecordRaw.type_new_of_lt (t : Nat) (d : PacketData) (ht : t < 256)
    (hd : d.length < 2 ^ 32) :
    (RecordRaw.new t d).type = t ∧ (RecordRaw.new t d).size = d.length ∧
      (RecordRaw.new t d).mData = d := by
  refine ⟨?_, ?_, rfl⟩
  · rw [RecordRaw.type_new]; exact Nat.mod_eq_of_lt ht
  · simp only [RecordRaw.size, RecordRaw.new, toUInt32]
    exact Nat.mod_eq_of_lt hd

/-- C7 (evaluation at the failing input). `RecordRaw( TYPE_CAA, {1, 2, 3} )`, with the
16-bit type code 257, reports `type() == 1`, not 257; its size is 3 and its octets are
kept. -/
theorem C7_RecordRaw_type_truncated :
    TYPE_CAA = 257 ∧ TYPE_CAA < 2 ^ 16 ∧
    (RecordRaw.new TYPE_CAA [1, 2, 3]).type = 1 ∧
    (RecordRaw.new TYPE_CAA [1, 2, 3]).type ≠ TYPE_CAA ∧
    (RecordRaw.new TYPE_CAA [1, 2, 3]).size = 3 ∧
    (RecordRaw.new TYPE_CAA [1, 2, 3]).mData = [1, 2, 3] := by
  decide

/-- What `RecordTKEY::clone()` returns for a record whose members hold values of their
declared widths: the record itself with `mAlgorithm` replaced by `mDomain`. -/
theorem RecordTKEY.clone_eq (r : RecordTKEY) (hr : r.WellTyped) :
    r.clone = { r with mAlgorithm := r.mDomain } := by
  obtain ⟨h1, h2, h3, h4⟩ := hr
  simp only [RecordTKEY.clone, RecordTKEY.new, toUInt32, toUInt16]
  rw [Nat.mod_eq_of_lt h1, Nat.mod_eq_of_lt h2, Nat.mod_eq_of_lt h3, Nat.mod_eq_of_lt h4]

/-- C8 (evaluation at the failing input). For the TKEY record with name `key.example` and
algorithm `HMAC-MD5.SIG-ALG.REG.INT`, the clone has `mAlgorithm` equal to the name
`key.example`, which is not the `mAlgorithm` of the record; the seven other members
are equal. -/
theorem C8_RecordTKEY_clone_algorithm :
    (RecordTKEY.new ⟨["key", "example"]⟩ ⟨["HMAC-MD5", "SIG-ALG", "REG", "INT"]⟩
        10 20 3 0 [1] [2]).clone.mAlgorithm = ⟨["key", "example"]⟩ ∧
    (RecordTKEY.new ⟨["key", "example"]⟩ ⟨["HMAC-MD5", "SIG-ALG", "REG", "INT"]⟩
        10 20 3 0 [1] [2]).mAlgorithm = ⟨["HMAC-MD5", "SIG-ALG", "REG", "INT"]⟩ ∧
    (RecordTKEY.new ⟨["key", "example"]⟩ ⟨["HMAC-MD5", "SIG-ALG", "REG", "INT"]⟩
        10 20 3 0 [1] [2]).clone.mAlgorithm ≠
      (RecordTKEY.new ⟨["key", "example"]⟩ ⟨["HMAC-MD5", "SIG-ALG", "REG", "INT"]⟩
        10 20 3 0 [1] [2]).mAlgorithm ∧
    (RecordTKEY.new ⟨["key", "example"]⟩ ⟨["HMAC-MD5", "SIG-ALG", "REG", "INT"]⟩
        10 20 3 0 [1] [2]).clone =
      RecordTKEY.new ⟨["key", "example"]⟩ ⟨["key", "example"]⟩ 10 20 3 0 [1] [2] := by
  decide

theorem toInt32_idem (x : Int) : toInt32 (toInt32 x) = toInt32 x := by
  unfold toInt32
  simp only
  split_ifs <;> omega

theorem toInt32_emod (x : Int) : toInt32 (x % 2 ^ 32) = toInt32 x := by
  unfold toInt32
  simp only
  split_ifs <;> omega

/-- What `RecordSIG::clone()` returns for a record built by the constructor: the record
built from the same arguments with the key tag reduced to its low octet. -/
theorem RecordSIG.clone_new (t algo label : Nat) (ttl : Int) (expire incept tag : Nat)
    (sign : Domainname) (sig : PacketData) :
    (RecordSIG.new t algo label ttl expire incept tag sign sig).clone =
      RecordSIG.new t algo label ttl expire incept (tag % 256) sign sig := by
  simp only [RecordSIG.clone, RecordSIG.new, RecordRRSIG.new, RecordRRSIG.getTypeCovered,
    RecordRRSIG.getAlgorithm, RecordRRSIG.getLabelCount, RecordRRSIG.getOriginalTTL,
    RecordRRSIG.getExpiration, RecordRRSIG.getInception, RecordRRSIG.getKeyTag,
    RecordRRSIG.getSigner, RecordRRSIG.getSignature, toInt32_idem, toInt32_emod,
    toUInt16, toUInt8, toUInt32]
  simp only [RecordSIG.mk.injEq, RecordRRSIG.mk.injEq, and_true, true_and]
  refine ⟨?_, ?_, ?_, ?_, ?_, ?_⟩ <;> omega

/-- C9 (evaluation at the failing input). A `RecordSIG` constructed with key tag 0x1234
has a clone whose key tag is 0x34; type covered, algorithm, label count, original TTL,
expiration, inception, signer and signature are those of the record. -/
theorem C9_RecordSIG_clone_key_tag :
    (RecordSIG.new 1 8 2 3600 1700003600 1700000000 0x1234 ⟨["example", "com"]⟩
        [9, 9]).mKeyTag = 0x1234 ∧
    (RecordSIG.new 1 8 2 3600 1700003600 1700000000 0x1234 ⟨["example", "com"]⟩
        [9, 9]).clone.mKeyTag = 0x34 ∧
    (RecordSIG.new 1 8 2 3600 1700003600 1700000000 0x1234 ⟨["example", "com"]⟩
        [9, 9]).clone =
      RecordSIG.new 1 8 2 3600 1700003600 1700000000 0x34 ⟨["example", "com"]⟩ [9, 9] ∧
    (RecordSIG.new 1 8 2 3600 1700003600 1700000000 0x1234 ⟨["example", "com"]⟩
        [9, 9]).clone ≠
      RecordSIG.new 1 8 2 3600 1700003600 1700000000 0x1234 ⟨["example", "com"]⟩ [9, 9] := by
  decide

/-- C10. Cloning a historical-alias record keeps its type tag: for every `RecordKEY`,
`RecordSIG` and `RecordNXT` value `r`, `r.clone().type()` equals `r.type()`, which is 25,
24 and 30 respectively, and differs from the tag of the newer type (48, 46, 47). The same
holds when the record is reached through an `RDATA` pointer and both calls are virtual. -/
theorem C10_alias_clone_keeps_type_tag (N : NSECCollaborators) (K : Constructors) :
    (∀ r : RecordKEY, r.clone.type = r.type ∧ r.clone.type = 25 ∧
      r.clone.type ≠ TYPE_DNSKEY ∧ TYPE_DNSKEY = 48) ∧
    (∀ r : RecordSIG, r.clone.type = r.type ∧ r.clone.type = 24 ∧
      r.clone.type ≠ TYPE_RRSIG ∧ TYPE_RRSIG = 46) ∧
    (∀ r : RecordNXT, (r.clone N).type = r.type ∧ (r.clone N).type = 30 ∧
      (r.clone N).type ≠ TYPE_NSEC ∧ TYPE_NSEC = 47) ∧
    (∀ r : RecordKEY, (RDATA.clone N K (.KEY r)).type = (RDATA.KEY r).type ∧
      (RDATA.clone N K (.KEY r)).type = 25) ∧
    (∀ r : RecordSIG, (RDATA.clone N K (.SIG r)).type = (RDATA.SIG r).type ∧
      (RDATA.clone N K (.SIG r)).type = 24) ∧
    (∀ r : RecordNXT, (RDATA.clone N K (.NXT r)).type = (RDATA.NXT r).type ∧
      (RDATA.clone N K (.NXT r)).type = 30) := by
  have hkey : TYPE_KEY ≠ TYPE_DNSKEY := by decide
  have hsig : TYPE_SIG ≠ TYPE_RRSIG := by decide
  have hnxt : TYPE_NXT ≠ TYPE_NSEC := by decide
  exact ⟨fun _ => ⟨rfl, rfl, hkey, rfl⟩, fun _ => ⟨rfl, rfl, hsig, rfl⟩,
    fun _ => ⟨rfl, rfl, hnxt, rfl⟩, fun _ => ⟨rfl, rfl⟩, fun _ => ⟨rfl, rfl⟩,
    fun _ => ⟨rfl, rfl⟩⟩

/-! ### Resource records and messages -/

/-- C11. The copy constructor of `ResourceRecord` yields a record with the name, type,
class and TTL of the source and with the clone of the source's RDATA, or no RDATA when
the source has none; copy assignment, whatever the assigned-to record held, yields the
same record. -/
theorem C11_ResourceRecord_copy_and_assign (N : NSECCollaborators) (K : Constructors)
    (self entry : ResourceRecord) :
    (ResourceRecord.copy N K entry).mDomainname = entry.mDomainname ∧
    (ResourceRecord.copy N K entry).mType = entry.mType ∧
    (ResourceRecord.copy N K entry).mClass = entry.mClass ∧
    (ResourceRecord.copy N K entry).mTTL = entry.mTTL ∧
    (ResourceRecord.copy N K entry).mRData = entry.mRData.map (RDATA.clone N K) ∧
    ResourceRecord.assign N K self entry = ResourceRecord.copy N K entry := by
  refine ⟨rfl, rfl, rfl, rfl, ?_, ?_⟩
  · cases h : entry.mRData <;> simp [ResourceRecord.copy, h]
  · cases h : entry.mRData <;> simp [ResourceRecord.copy, ResourceRecord.assign, h]

/-- C12. The `type()` of every concrete RDATA class is the wire code of its RR type. -/
theorem C12_type_codes :
    (∀ r : RecordA, (RDATA.A r).type = 1) ∧
    (∀ r : RecordNS, (RDATA.NS r).type = 2) ∧
    (∀ r : RecordCNAME, (RDATA.CNAME r).type = 5) ∧
    (∀ r : RecordSOA, (RDATA.SOA r).type = 6) ∧
    (∀ r : RecordWKS, (RDATA.WKS r).type = 11) ∧
    (∀ r : RecordMX, (RDATA.MX r).type = 15) ∧
    (∀ r : RecordTXT, (RDATA.TXT r).type = 16) ∧
    (∀ r : RecordSIG, (RDATA.SIG r).type = 24) ∧
    (∀ r : RecordKEY, (RDATA.KEY r).type = 25) ∧
    (∀ r : RecordAAAA, (RDATA.AAAA r).type = 28) ∧
    (∀ r : RecordNXT, (RDATA.NXT r).type = 30) ∧
    (∀ r : RecordSRV, (RDATA.SRV r).type = 33) ∧
    (∀ r : RecordNAPTR, (RDATA.NAPTR r).type = 35) ∧
    (∀ r : RecordDNAME, (RDATA.DNAME r).type = 39) ∧
    (∀ r : RecordOptionsData, (RDATA.OptionsData r).type = 41) ∧
    (∀ r : RecordAPL, (RDATA.APL r).type = 42) ∧
    (∀ r : RecordDS, (RDATA.DS r).type = 43) ∧
    (∀ r : RecordRRSIG, (RDATA.RRSIG r).type = 46) ∧
    (∀ r : RecordNSEC, (RDATA.NSEC r).type = 47) ∧
    (∀ r : RecordDNSKEY, (RDATA.DNSKEY r).type = 48) ∧
    (∀ r : RecordNSEC3, (RDATA.NSEC3 r).type = 50) ∧
    (∀ r : RecordNSEC3PARAM, (RDATA.NSEC3PARAM r).type = 51) ∧
    (∀ r : RecordTLSA, (RDATA.TLSA r).type = 52) ∧
    (∀ r : RecordSPF, (RDATA.SPF r).type = 99) ∧
    (∀ r : RecordTKEY, (RDATA.TKEY r).type = 249) ∧
    (∀ r : RecordTSIGData, (RDATA.TSIGData r).type = 250) ∧
    (∀ r : RecordCAA, (RDATA.CAA r).type = 257) := by
  refine ⟨?_, ?_, ?_, ?_, ?_, ?_, ?_, ?_, ?_, ?_, ?_, ?_, ?_, ?_, ?_, ?_, ?_, ?_, ?_, ?_,
    ?_, ?_, ?_, ?_, ?_, ?_, ?_⟩ <;> intro _ <;> rfl

/-- The size reported by every WKS record. -/
theorem RecordWKS.size_eq (r : RecordWKS) : r.size = 4 := rfl

/-- C13 (evaluation at the failing input). The WKS record for address 127.0.0.1,
protocol 6 and a bitmap with the one port 25 reports size 4, below the 5 octets of
address and protocol alone. -/
theorem C13_RecordWKS_size_is_four :
    (RecordWKS.mk 0x7f000001 6 [25]).size = 4 ∧
    ¬ (5 ≤ (RecordWKS.mk 0x7f000001 6 [25]).size) ∧
    (RDATA.WKS (RecordWKS.mk 0x7f000001 6 [25])).type = TYPE_WKS := by
  decide

/-- C14. For every `RecordRRSIG` whose size fits the `uint32_t` that `size()` returns,
`size()` is 18 plus the wire size of the signer name plus the length of the signature,
and 18 = 2 + 1 + 1 + 4 + 4 + 4 + 2. -/
theorem C14_RecordRRSIG_size (nameSize : Domainname → Nat) (r : RecordRRSIG)
    (h : 18 + nameSize r.mSigner + r.mSignature.length < 2 ^ 32) :
    r.size nameSize = 18 + nameSize r.mSigner + r.mSignature.length ∧
    18 = 2 + 1 + 1 + 4 + 4 + 4 + 2 := by
  refine ⟨?_, rfl⟩
  unfold RecordRRSIG.size toUInt32
  exact Nat.mod_eq_of_lt h

/-- C14 (witness). An RRSIG record with a 13-octet signer name and a 2-octet signature
has size 33. -/
theorem C14_RecordRRSIG_size_witness :
    18 + (fun _ => 13 : Domainname → Nat) ⟨["example", "com"]⟩ + [9, 9].length < 2 ^ 32 ∧
    (RecordRRSIG.new 1 8 2 3600 1700003600 1700000000 0x1234 ⟨["example", "com"]⟩
      [9, 9]).size (fun _ => 13) = 33 :=
  ⟨by decide, (C14_RecordRRSIG_size (fun _ => 13)
    (RecordRRSIG.new 1 8 2 3600 1700003600 1700000000 0x1234 ⟨["example", "com"]⟩ [9, 9])
    (by decide)).1⟩

/-- C15. For every `RecordDNSKEY`, and every `RecordKEY`, whose size fits the `uint32_t`
that `size()` returns, `size()` is 4 plus the length of the public key, and
4 = 2 + 1 + 1. -/
theorem C15_RecordDNSKEY_size (r : RecordDNSKEY) (k : RecordKEY)
    (hr : 4 + r.mPublicKey.length < 2 ^ 32) (hk : 4 + k.mPublicKey.length < 2 ^ 32) :
    r.size = 4 + r.mPublicKey.length ∧ k.size = 4 + k.mPublicKey.length ∧
    4 = 2 + 1 + 1 := by
  refine ⟨?_, ?_, rfl⟩
  · unfold RecordDNSKEY.size toUInt32
    exact Nat.mod_eq_of_lt hr
  · unfold RecordKEY.size RecordDNSKEY.size toUInt32
    exact Nat.mod_eq_of_lt hk

/-- C15 (witness). A DNSKEY and a KEY record with a 3-octet public key have size 7. -/
theorem C15_RecordDNSKEY_size_witness :
    4 + (RecordDNSKEY.new 257 13 [1, 2, 3]).mPublicKey.length < 2 ^ 32 ∧
    4 + (RecordKEY.new 257 13 [1, 2, 3]).mPublicKey.length < 2 ^ 32 ∧
    (RecordDNSKEY.new 257 13 [1, 2, 3]).size = 7 ∧
    (RecordKEY.new 257 13 [1, 2, 3]).size = 7 :=
  have h := C15_RecordDNSKEY_size (RecordDNSKEY.new 257 13 [1, 2, 3])
    (RecordKEY.new 257 13 [1, 2, 3]) (by decide) (by decide)
  ⟨by decide, by decide, h.1, h.2.1⟩

/-! ### The signer's enumerations -/

/-- C16 (counterexample). No enumerator of `SignAlgorithm` has the value 8 (RSA-SHA256)
and none has the value 10 (RSA-SHA512). -/
theorem C16_SignAlgorithm_lacks_rsasha256_rsasha512 :
    (¬ ∃ a : SignAlgorithm, a.value = 8) ∧ (¬ ∃ a : SignAlgorithm, a.value = 10) := by
  constructor <;> rintro ⟨a, h⟩ <;> cases a <;> exact absurd h (by decide)

/-- C16 (amended). `SignAlgorithm` has an enumerator for RSA-SHA1 (5), for ECDSA-P256 (13)
and for ECDSA-P384 (14), and every enumerator has one of these three values. -/
theorem C16_SignAlgorithm_values :
    (∃ a : SignAlgorithm, a.value = 5) ∧ (∃ a : SignAlgorithm, a.value = 13) ∧
    (∃ a : SignAlgorithm, a.value = 14) ∧
    (∀ a : SignAlgorithm, a.value = 5 ∨ a.value = 13 ∨ a.value = 14) := by
  refine ⟨⟨.DNSSEC_RSASHA1, rfl⟩, ⟨.DNSSEC_ECDSASHA256, rfl⟩, ⟨.DNSSEC_ECDSASHA384, rfl⟩, ?_⟩
  intro a
  cases a
  · exact Or.inl rfl
  · exact Or.inr (Or.inl rfl)
  · exact Or.inr (Or.inr rfl)

/-! ### The UDP size check -/

/-- C17. In the UDP server step the limit `L` is the advertised EDNS0 payload size when
the query is EDNS0 and that size is above 512 (also when it is above 4096), and 512
otherwise. When `getMessageSize()` exceeds `L` the response handed on is the generated
response with the TC bit set and the answer, authority and additional sections empty,
every other member (question section and header fields included) as it was; when it does
not exceed `L` the response is the generated response. -/
theorem C17_udp_truncation (getMessageSize : MessageInfo → Nat)
    (query response_info : MessageInfo) :
    udpSizeStep getMessageSize query response_info =
      if getMessageSize response_info >
          (if query.mIsEDNS0 = true ∧ query.mOptPseudoRR.mPayloadSize > 512 then
            query.mOptPseudoRR.mPayloadSize else 512) then
        { response_info with
          mTruncation := true
          mAnswerSection := []
          mAuthoritySection := []
          mAdditionalSection := [] }
      else response_info := by
  unfold udpSizeStep truncateIfTooLarge requestedMaxPayloadSize MessageInfo.isEDNS0
  by_cases h1 : query.mIsEDNS0 = true ∧ query.mOptPseudoRR.mPayloadSize > 512
  · by_cases h2 : query.mOptPseudoRR.mPayloadSize > 4096 <;>
      simp [h1, h2, MessageInfo.clearAnswerSection, MessageInfo.clearAuthoritySection,
        MessageInfo.clearAdditionalSection]
  · simp [h1, MessageInfo.clearAnswerSection, MessageInfo.clearAuthoritySection,
      MessageInfo.clearAdditionalSection]

/-! ### Primitive reads -/

theorem readOctets_congr (mem mem' : Nat → Nat) (n pos : Nat)
    (h : ∀ a, pos ≤ a → a < pos + n → mem a = mem' a) :
    readOctets mem pos n = readOctets mem' pos n := by
  induction n generalizing pos with
  | zero => rfl
  | succ n ih =>
    simp only [readOctets]
    rw [h pos (Nat.le_refl _) (by omega), ih (pos + 1) (fun a h1 h2 => h a (by omega) (by omega))]

theorem readOctets_lt (mem : Nat → Nat) (n pos : Nat) : readOctets mem pos n < 256 ^ n := by
  induction n generalizing pos with
  | zero => simp [readOctets]
  | succ n ih =>
    have h := ih (pos + 1)
    have hm : mem pos % 256 < 256 := Nat.mod_lt _ (by decide)
    simp only [readOctets, pow_succ]
    omega

/-- Octet `i` of the value of `n` octets read at `pos` is the octet of memory at address
`pos + i`. -/
theorem readOctets_octet (mem : Nat → Nat) (n pos i : Nat) (hi : i < n) :
    (readOctets mem pos n / 256 ^ i) % 256 = mem (pos + i) % 256 := by
  induction n generalizing pos i with
  | zero => omega
  | succ n ih =>
    simp only [readOctets]
    cases i with
    | zero =>
      simp only [pow_zero, Nat.div_one, Nat.add_zero]
      omega
    | succ i =>
      have hdiv : (mem pos % 256 + 256 * readOctets mem (pos + 1) n) / 256 ^ (i + 1) =
          readOctets mem (pos + 1) n / 256 ^ i := by
        rw [pow_succ, Nat.mul_comm (256 ^ i) 256, ← Nat.div_div_eq_div_mul]
        congr 1
        omega
      rw [hdiv, ih (pos + 1) i (by omega)]
      congr 2
      omega

/-- The addresses that `get_bytes` reads are exactly the `sizeofType` addresses from `pos`
on. -/
theorem readsAddress_get_bytes (sizeofType pos a : Nat) :
    readsAddress (fun mem => (get_bytes sizeofType mem pos).1) a ↔
      pos ≤ a ∧ a < pos + sizeofType := by
  constructor
  · rintro ⟨mem, v, hne⟩
    by_contra hout
    apply hne
    apply readOctets_congr
    intro b hb1 hb2
    have hba : b ≠ a := by
      rintro rfl
      exact hout ⟨hb1, hb2⟩
    exact Function.update_noteq hba v mem
  · rintro ⟨h1, h2⟩
    refine ⟨fun _ => 0, 1, ?_⟩
    intro heq
    have hi : a - pos < sizeofType := by omega
    have e1 := readOctets_octet (Function.update (fun _ => 0) a 1) sizeofType pos (a - pos) hi
    have e2 := readOctets_octet (fun _ => 0) sizeofType pos (a - pos) hi
    have hpa : pos + (a - pos) = a := by omega
    simp only [get_bytes] at heq
    rw [heq, e2, hpa, Function.update_same] at e1
    have e3 : (0 : Nat) % 256 = 1 % 256 := e1
    exact absurd e3 (by decide)

/-- C18 (counterexample). The packet is the single octet 0x12 at address 0, so its end is
address 1. `get_bytes<uint16_t>` at address 0, where one octet remains, does not fail: it
moves the position to 2, past the end, and its value is made of the octet at address 1,
outside the packet (0x3412 when that octet is 0x34, 0x5612 when it is 0x56). -/
theorem C18_get_bytes_reads_past_end :
    (∀ a, a < 1 → (fun a => if a = 0 then 0x12 else 0x34 : Nat → Nat) a =
      (fun a => if a = 0 then 0x12 else 0x56 : Nat → Nat) a) ∧
    (get_bytes 2 (fun a => if a = 0 then 0x12 else 0x34) 0).2 = 2 ∧
    (1 : Nat) < (get_bytes 2 (fun a => if a = 0 then 0x12 else 0x34) 0).2 ∧
    (get_bytes 2 (fun a => if a = 0 then 0x12 else 0x34) 0).1 = 0x3412 ∧
    (get_bytes 2 (fun a => if a = 0 then 0x12 else 0x56) 0).1 = 0x5612 := by
  decide

/-- C18 (amended). `get_bytes<T>(pos)`, for a type of at least one octet, performs no length
check and never fails. For every memory it advances the position by `sizeof(T)`. The value
it returns is made of the `sizeof(T)` octets that start at the position: octet `i` of the
value is the octet of memory at address `pos + i`, the value has no other octets, and two
memories that agree on these addresses give the same value. The addresses it reads are
exactly those from `pos` up to, and not including, `pos + sizeof(T)`, wherever the packet
ends. So for a packet that ends at `packet_end` every address read is inside the packet if
and only if at least `sizeof(T)` octets remain, `pos + sizeof(T) ≤ packet_end`. -/
theorem C18_get_bytes_unchecked (sizeofType pos packet_end : Nat) (hsize : 0 < sizeofType) :
    (∀ mem, (get_bytes sizeofType mem pos).2 = pos + sizeofType) ∧
    (∀ mem i, i < sizeofType →
      ((get_bytes sizeofType mem pos).1 / 256 ^ i) % 256 = mem (pos + i) % 256) ∧
    (∀ mem, (get_bytes sizeofType mem pos).1 < 256 ^ sizeofType) ∧
    (∀ mem mem', (∀ a, pos ≤ a → a < pos + sizeofType → mem a = mem' a) →
      (get_bytes sizeofType mem pos).1 = (get_bytes sizeofType mem' pos).1) ∧
    (∀ a, readsAddress (fun mem => (get_bytes sizeofType mem pos).1) a ↔
      pos ≤ a ∧ a < pos + sizeofType) ∧
    ((∀ a, readsAddress (fun mem => (get_bytes sizeofType mem pos).1) a → a < packet_end) ↔
      pos + sizeofType ≤ packet_end) := by
  refine ⟨fun _ => rfl, fun mem i hi => readOctets_octet mem sizeofType pos i hi,
    fun mem => readOctets_lt mem sizeofType pos,
    fun mem mem' h => readOctets_congr mem mem' sizeofType pos h,
    fun a => readsAddress_get_bytes sizeofType pos a, ?_⟩
  constructor
  · intro h
    have := h (pos + sizeofType - 1)
      ((readsAddress_get_bytes sizeofType pos _).mpr ⟨by omega, by omega⟩)
    omega
  · intro h a ha
    have := (readsAddress_get_bytes sizeofType pos a).mp ha
    omega

/-- C18 (witness of the amended claim). For `uint16_t` at position 0 of a packet that ends
at address 1: the position becomes 2, octet 1 of the value is the octet at address 1, the
address 1 is read, and not every address read lies inside the packet. -/
theorem C18_get_bytes_unchecked_witness :
    0 < 2 ∧
    (get_bytes 2 (fun a => if a = 0 then 0x12 else 0x34) 0).2 = 0 + 2 ∧
    ((get_bytes 2 (fun a => if a = 0 then 0x12 else 0x34) 0).1 / 256 ^ 1) % 256 =
      (fun a => if a = 0 then 0x12 else 0x34 : Nat → Nat) (0 + 1) % 256 ∧
    readsAddress (fun mem => (get_bytes 2 mem 0).1) 1 ∧
    ¬ (∀ a, readsAddress (fun mem => (get_bytes 2 mem 0).1) a → a < 1) :=
  have h := C18_get_bytes_unchecked 2 0 1 (by decide)
  ⟨by decide, h.1 _, h.2.1 _ 1 (by decide), (h.2.2.2.2.1 1).mpr ⟨by decide, by decide⟩,
    fun hall => absurd (h.2.2.2.2.2.mp hall) (by decide)⟩

/-! ### The section builders -/

/-- Pushing a question entry appends it and changes nothing else. -/
theorem MessageInfo.pushQuestionSection_eq (m : MessageInfo) (e : QuestionSectionEntry) :
    (m.pushQuestionSection e).mQuestionSection = m.mQuestionSection ++ [e] ∧
    m.pushQuestionSection e =
      { m with mQuestionSection := (m.pushQuestionSection e).mQuestionSection } :=
  ⟨rfl, rfl⟩

/-- Pushing a resource record changes the one section named and nothing else, and the
section becomes the records it held, in their order, followed by the copy of `e` that the
copy constructor makes. -/
theorem MessageInfo.pushSection_frame (N : NSECCollaborators) (K : Constructors)
    (grow : Bool) (m : MessageInfo) (e : ResourceRecord) :
    MessageInfo.pushAnswerSection N K grow m e =
      { m with mAnswerSection := pushBackRecord N K grow m.mAnswerSection e } ∧
    MessageInfo.pushAuthoritySection N K grow m e =
      { m with mAuthoritySection := pushBackRecord N K grow m.mAuthoritySection e } ∧
    MessageInfo.pushAdditionalSection N K grow m e =
      { m with mAdditionalSection := pushBackRecord N K grow m.mAdditionalSection e } :=
  ⟨rfl, rfl, rfl⟩

/-- When copying leaves `e` and the records already held as they are, the section becomes
its previous content followed by `e`. -/
theorem pushBackRecord_of_copy_eq (N : NSECCollaborators) (K : Constructors) (grow : Bool)
    (v : List ResourceRecord) (e : ResourceRecord)
    (he : ResourceRecord.copy N K e = e) (hv : ∀ x ∈ v, ResourceRecord.copy N K x = x) :
    pushBackRecord N K grow v e = v ++ [e] := by
  unfold pushBackRecord
  rw [he]
  cases grow
  · simp
  · simp only [if_true]
    rw [List.map_congr_left hv, List.map_id']

/-- C19 (evaluation at the failing input). `pushAnswerSection( e )` on a message with an
empty answer section, for the TKEY record `e` whose RDATA has name `key.example` and
algorithm `HMAC-MD5.SIG-ALG.REG.INT`: the answer section becomes one record whose RDATA
has algorithm `key.example`, which is not `e`; the other sections, the header fields and
the flags are unchanged. -/
theorem C19_pushAnswerSection_stores_altered_copy :
    ∀ (N : NSECCollaborators) (K : Constructors) (grow : Bool),
      sampleMessage.mAnswerSection = [] ∧
      (MessageInfo.pushAnswerSection N K grow sampleMessage sampleTKEYRecord).mAnswerSection =
        [{ sampleTKEYRecord with
            mRData := some (.TKEY (RecordTKEY.new ⟨["key", "example"]⟩ ⟨["key", "example"]⟩
              10 20 3 0 [1] [2])) }] ∧
      (MessageInfo.pushAnswerSection N K grow sampleMessage sampleTKEYRecord).mAnswerSection ≠
        sampleMessage.mAnswerSection ++ [sampleTKEYRecord] ∧
      MessageInfo.pushAnswerSection N K grow sampleMessage sampleTKEYRecord =
        { sampleMessage with
          mAnswerSection :=
            (MessageInfo.pushAnswerSection N K grow sampleMessage
              sampleTKEYRecord).mAnswerSection } := by
  intro N K grow
  have hcopy : ResourceRecord.copy N K sampleTKEYRecord =
      { sampleTKEYRecord with
        mRData := some (.TKEY (RecordTKEY.new ⟨["key", "example"]⟩ ⟨["key", "example"]⟩
          10 20 3 0 [1] [2])) } := by
    simp only [ResourceRecord.copy, sampleTKEYRecord, RDATA.clone]
    decide
  have hsec : (MessageInfo.pushAnswerSection N K grow sampleMessage
      sampleTKEYRecord).mAnswerSection =
      [ResourceRecord.copy N K sampleTKEYRecord] := by
    cases grow <;> rfl
  refine ⟨rfl, ?_, ?_, rfl⟩
  · rw [hsec, hcopy]
  · rw [hsec, hcopy]
    decide

/-! ### The NSEC bitmap codec -/

theorem Window.mem_add (w : Window) (t x : Type_) :
    x ∈ (w.add t).mTypes ↔ x ∈ w.mTypes ∨ x = t := by
  unfold Window.add
  split_ifs with h
  · constructor
    · exact Or.inl
    · rintro (h1 | rfl)
      · exact h1
      · exact h
  · simp

theorem typesOfWindows_nil : typesOfWindows [] = [] := rfl

theorem typesOfWindows_cons (e : Nat × Window) (m : List (Nat × Window)) :
    typesOfWindows (e :: m) = e.2.mTypes ++ typesOfWindows m := by
  simp [typesOfWindows]

theorem NSECBitmapField.mem_addTo (m : List (Nat × Window)) (k : Nat) (t x : Type_) :
    x ∈ typesOfWindows (NSECBitmapField.addTo m k t) ↔ x ∈ typesOfWindows m ∨ x = t := by
  induction m with
  | nil =>
    simp only [NSECBitmapField.addTo, typesOfWindows_cons, typesOfWindows_nil,
      List.mem_append, Window.mem_add]
    tauto
  | cons e rest ih =>
    obtain ⟨k', w⟩ := e
    unfold NSECBitmapField.addTo
    split_ifs with h1 h2
    · simp only [typesOfWindows_cons, List.mem_append, Window.mem_add]
      tauto
    · simp only [typesOfWindows_cons, typesOfWindows_nil, List.mem_append, Window.mem_add,
        List.not_mem_nil, false_or]
      tauto
    · simp only [typesOfWindows_cons, List.mem_append, ih]
      tauto

theorem NSECBitmapField.mem_getTypes_add (f : NSECBitmapField) (t x : Type_) :
    x ∈ (f.add t).getTypes ↔ x ∈ f.getTypes ∨ x = t :=
  NSECBitmapField.mem_addTo f.mWindows _ t x

theorem NSECBitmapField.mem_getTypes_foldl_add (ts : List Type_) (f : NSECBitmapField) (x : Type_) :
    x ∈ (ts.foldl NSECBitmapField.add f).getTypes ↔ x ∈ f.getTypes ∨ x ∈ ts := by
  induction ts generalizing f with
  | nil => simp
  | cons t ts ih =>
    simp only [List.foldl_cons, ih, NSECBitmapField.mem_getTypes_add, List.mem_cons]
    tauto

theorem mem_bitsOfOctet (base b x : Nat) :
    x ∈ bitsOfOctet base b ↔ ∃ j, j < 8 ∧ (b / 2 ^ (7 - j)) % 2 = 1 ∧ x = base + j := by
  unfold bitsOfOctet
  simp only [List.mem_map, List.mem_filter, List.mem_range, decide_eq_true_eq]
  constructor
  · rintro ⟨j, ⟨hj, hb⟩, rfl⟩
    exact ⟨j, hj, hb, rfl⟩
  · rintro ⟨j, hj, hb, rfl⟩
    exact ⟨j, ⟨hj, hb⟩, rfl⟩

theorem mem_typesOfBitmap_range (f : Nat → Nat) (n s base x : Nat) :
    x ∈ typesOfBitmap base ((List.range' s n).map f) ↔
      ∃ i j, i < n ∧ j < 8 ∧ (f (s + i) / 2 ^ (7 - j)) % 2 = 1 ∧ x = base + 8 * i + j := by
  induction n generalizing s base with
  | zero => simp [typesOfBitmap]
  | succ n ih =>
    simp only [List.range'_succ, List.map_cons, typesOfBitmap, List.mem_append,
      mem_bitsOfOctet, ih]
    constructor
    · rintro (⟨j, hj, hb, rfl⟩ | ⟨i, j, hi, hj, hb, rfl⟩)
      · exact ⟨0, j, by omega, hj, by simpa using hb, by omega⟩
      · exact ⟨i + 1, j, by omega, hj, by rw [← Nat.add_assoc]; rwa [Nat.add_right_comm] at hb, by omega⟩
    · rintro ⟨i, j, hi, hj, hb, rfl⟩
      cases i with
      | zero => exact Or.inl ⟨j, hj, by simpa using hb, by omega⟩
      | succ i =>
        refine Or.inr ⟨i, j, by omega, hj, ?_, by omega⟩
        rw [Nat.add_right_comm, Nat.add_assoc]; exact hb

theorem Window.bitOf_le_one (w : Window) (k : Nat) : w.bitOf k ≤ 1 := by
  unfold Window.bitOf; split_ifs <;> omega

theorem Window.bitOf_eq_one_iff (w : Window) (k : Nat) :
    w.bitOf k = 1 ↔ ∃ t ∈ w.mTypes, Window.typeToBitmapIndex t = k := by
  unfold Window.bitOf; split_ifs with h <;> simp [h]

theorem Window.octet_bit (w : Window) (i j : Nat) (hj : j < 8) :
    (w.octet i / 2 ^ (7 - j)) % 2 = 1 ↔ w.bitOf (8 * i + j) = 1 := by
  have h0 := w.bitOf_le_one (8 * i)
  have h1 := w.bitOf_le_one (8 * i + 1)
  have h2 := w.bitOf_le_one (8 * i + 2)
  have h3 := w.bitOf_le_one (8 * i + 3)
  have h4 := w.bitOf_le_one (8 * i + 4)
  have h5 := w.bitOf_le_one (8 * i + 5)
  have h6 := w.bitOf_le_one (8 * i + 6)
  have h7 := w.bitOf_le_one (8 * i + 7)
  unfold Window.octet
  interval_cases j <;> simp only [Nat.add_zero, Nat.reduceSub, Nat.reducePow, Nat.pow_zero,
    Nat.div_one] <;> omega

theorem Window.typeToBitmapIndex_eq (t : Type_) :
    Window.typeToBitmapIndex t = (t : Nat) % 256 := by
  show @Eq Nat (t % 256 % 2 ^ 8) (t % 256)
  omega

theorem Window.typeToBitmapIndex_le (t : Type_) : Window.typeToBitmapIndex t ≤ 255 := by
  rw [Window.typeToBitmapIndex_eq]
  have : (t : Nat) % 256 < 256 := Nat.mod_lt _ (by decide)
  omega

theorem foldr_maxBit_ge (l : List Type_) (t : Type_) (ht : t ∈ l) :
    Window.typeToBitmapIndex t ≤
      l.foldr (fun t m => max (Window.typeToBitmapIndex t) m) 0 := by
  induction l with
  | nil => simp at ht
  | cons a l ih =>
    simp only [List.foldr_cons]
    rcases List.mem_cons.mp ht with rfl | h
    · exact Nat.le_max_left _ _
    · exact Nat.le_trans (ih h) (Nat.le_max_right _ _)

theorem foldr_maxBit_le (l : List Type_) :
    l.foldr (fun t m => max (Window.typeToBitmapIndex t) m) 0 ≤ 255 := by
  induction l with
  | nil => simp
  | cons a l ih =>
    simp only [List.foldr_cons]
    exact Nat.max_le.mpr ⟨Window.typeToBitmapIndex_le a, ih⟩

theorem Window.le_maxBit (w : Window) (t : Type_) (ht : t ∈ w.mTypes) :
    Window.typeToBitmapIndex t ≤ w.maxBit :=
  foldr_maxBit_ge w.mTypes t ht

theorem Window.maxBit_le (w : Window) : w.maxBit ≤ 255 := foldr_maxBit_le w.mTypes

theorem Window.getWindowSize_pos (w : Window) : 0 < w.getWindowSize := by
  unfold Window.getWindowSize; omega

theorem Window.getWindowSize_le (w : Window) : w.getWindowSize ≤ 32 := by
  have := w.maxBit_le
  unfold Window.getWindowSize; omega

theorem Window.mem_parse_bitmap (w : Window) (idx : Nat)
    (hw : ∀ t ∈ w.mTypes, t / 256 = idx) (x : Type_) :
    x ∈ (Window.parse idx w.bitmap).mTypes ↔ x ∈ w.mTypes := by
  unfold Window.parse Window.bitmap
  simp only [List.range_eq_range', mem_typesOfBitmap_range, Nat.zero_add]
  constructor
  · rintro ⟨i, j, hi, hj, hb, rfl⟩
    rw [Window.octet_bit w i j hj, Window.bitOf_eq_one_iff] at hb
    obtain ⟨t, ht, hk⟩ := hb
    rw [Window.typeToBitmapIndex_eq] at hk
    have hk' : @Eq Nat (t % 256) (8 * i + j) := hk
    have h1 : @Eq Nat (t / 256) idx := hw t ht
    have : @Eq Nat t (256 * idx + 8 * i + j) := by omega
    rw [← this]; exact ht
  · intro hx
    have h1 : @Eq Nat (x / 256) idx := hw x hx
    have h2 := w.le_maxBit x hx
    rw [Window.typeToBitmapIndex_eq] at h2
    have h2' : @LE.le Nat _ (x % 256) w.maxBit := h2
    have h3 : @Eq Nat x (256 * idx + 8 * (x % 256 / 8) + x % 256 % 8) := by omega
    have h4 : @Eq Nat (x % 256) (8 * (x % 256 / 8) + x % 256 % 8) := by omega
    refine ⟨x % 256 / 8, x % 256 % 8, ?_, ?_, ?_, h3⟩
    · unfold Window.getWindowSize
      show @LT.lt Nat _ (x % 256 / 8) (w.maxBit / 8 + 1)
      omega
    · show @LT.lt Nat _ (x % 256 % 8) 8
      omega
    · rw [Window.octet_bit w _ _ (by show @LT.lt Nat _ (x % 256 % 8) 8; omega),
        Window.bitOf_eq_one_iff]
      exact ⟨x, hx, by rw [Window.typeToBitmapIndex_eq]; exact h4⟩

theorem Window.add_mIndex (w : Window) (t : Type_) : (w.add t).mIndex = w.mIndex := by
  unfold Window.add; split_ifs <;> rfl

theorem WindowsOk.addTo (m : List (Nat × Window)) (k : Nat) (t : Type_)
    (hm : WindowsOk m) (hk : k < 256) (ht : t / 256 = k) :
    WindowsOk (NSECBitmapField.addTo m k t) := by
  have hnew : ∀ w : Window, w.mIndex = k → (∀ x ∈ w.mTypes, x / 256 = k) →
      (w.add t).mIndex = k ∧ k < 256 ∧ ∀ x ∈ (w.add t).mTypes, x / 256 = k := by
    intro w hi hx
    refine ⟨by rw [Window.add_mIndex, hi], hk, ?_⟩
    intro x hxm
    rcases (Window.mem_add w t x).mp hxm with h | rfl
    · exact hx x h
    · exact ht
  induction m with
  | nil =>
    intro e he
    simp only [NSECBitmapField.addTo, List.mem_singleton] at he
    subst he
    exact hnew ⟨k, []⟩ rfl (by simp)
  | cons e rest ih =>
    obtain ⟨k', w⟩ := e
    have hrest : WindowsOk rest := fun e he => hm e (List.mem_cons_of_mem _ he)
    have hhead := hm (k', w) (List.mem_cons_self _ _)
    unfold NSECBitmapField.addTo
    split_ifs with h1 h2
    · subst h1
      intro e he
      rcases List.mem_cons.mp he with rfl | he
      · exact hnew w hhead.1 hhead.2.2
      · exact hrest e he
    · intro e he
      rcases List.mem_cons.mp he with rfl | he
      · exact hnew ⟨k, []⟩ rfl (by simp)
      · exact hm e he
    · intro e he
      rcases List.mem_cons.mp he with rfl | he
      · exact hhead
      · exact ih hrest e he

theorem NSECBitmapField.typeToWindowIndex_eq (t : Type_) (ht : t < 65536) :
    NSECBitmapField.typeToWindowIndex t = t / 256 ∧ t / 256 < 256 := by
  have h : @LT.lt Nat _ t 65536 := ht
  constructor
  · show @Eq Nat (t / 256 % 2 ^ 8) (t / 256)
    omega
  · show @LT.lt Nat _ (t / 256) 256
    omega

theorem WindowsOk.foldl_add (ts : List Type_) (f : NSECBitmapField)
    (hf : WindowsOk f.mWindows) (hts : ∀ t ∈ ts, t < 65536) :
    WindowsOk (ts.foldl NSECBitmapField.add f).mWindows := by
  induction ts generalizing f with
  | nil => exact hf
  | cons t ts ih =>
    simp only [List.foldl_cons]
    apply ih
    · have h := NSECBitmapField.typeToWindowIndex_eq t (hts t (List.mem_cons_self _ _))
      unfold NSECBitmapField.add
      rw [h.1]
      exact WindowsOk.addTo f.mWindows _ t hf h.2 rfl
    · exact fun x hx => hts x (List.mem_cons_of_mem _ hx)

theorem Window.bitmap_length (w : Window) : w.bitmap.length = w.getWindowSize := by
  simp [Window.bitmap]

theorem parseAux_encodeWindows (m : List (Nat × Window)) (hm : WindowsOk m) (fuel : Nat)
    (f : NSECBitmapField) (hfuel : (encodeWindows m).length ≤ fuel) :
    NSECBitmapField.parseAux fuel (encodeWindows m) f = some (decodeAll m f) := by
  induction m generalizing fuel f with
  | nil =>
    cases fuel <;> simp [encodeWindows, decodeAll, NSECBitmapField.parseAux]
  | cons e rest ih =>
    obtain ⟨k, w⟩ := e
    have hrest : WindowsOk rest := fun e he => hm e (List.mem_cons_of_mem _ he)
    obtain ⟨hidx, hk, _⟩ := hm (k, w) (List.mem_cons_self _ _)
    have henc : encodeWindows ((k, w) :: rest) =
        k :: w.getWindowSize :: (w.bitmap ++ encodeWindows rest) := by
      simp only [encodeWindows, List.map_cons, List.flatten_cons, Window.outputWireFormat,
        Window.bitmap, List.cons_append]
      have hk' : toUInt8 w.mIndex = k := by
        simp only at hidx
        rw [hidx]
        exact Nat.mod_eq_of_lt hk
      simp only at hk'
      rw [hk']
    rw [henc] at hfuel ⊢
    cases fuel with
    | zero => simp at hfuel
    | succ fuel =>
      have hpos := w.getWindowSize_pos
      have hle := w.getWindowSize_le
      have hlen := w.bitmap_length
      simp only [List.length_cons, List.length_append] at hfuel
      unfold NSECBitmapField.parseAux
      have c1 : ¬ (w.getWindowSize = 0 ∨ w.getWindowSize > 32) := by omega
      have c2 : ¬ ((w.bitmap ++ encodeWindows rest).length < w.getWindowSize) := by
        simp only [List.length_append]; omega
      rw [if_neg c1, if_neg c2]
      have ht : (w.bitmap ++ encodeWindows rest).take w.getWindowSize = w.bitmap := by
        rw [← hlen]; exact List.take_left' rfl
      have hd : (w.bitmap ++ encodeWindows rest).drop w.getWindowSize = encodeWindows rest := by
        rw [← hlen]; exact List.drop_left' rfl
      rw [ht, hd, ih hrest fuel _ (by omega)]
      rfl

theorem NSECBitmapField.mem_getTypes_addWindow (f : NSECBitmapField) (win : Window) (x : Type_) :
    x ∈ (f.addWindow win).getTypes ↔ x ∈ f.getTypes ∨ x ∈ win.mTypes :=
  NSECBitmapField.mem_getTypes_foldl_add win.mTypes f x

theorem mem_typesOfWindows (m : List (Nat × Window)) (x : Type_) :
    x ∈ typesOfWindows m ↔ ∃ e ∈ m, x ∈ e.2.mTypes := by
  induction m with
  | nil => simp [typesOfWindows_nil]
  | cons e rest ih =>
    simp only [typesOfWindows_cons, List.mem_append, ih, List.mem_cons, exists_eq_or_imp]

theorem mem_getTypes_decodeAll (m : List (Nat × Window)) (hm : WindowsOk m)
    (f : NSECBitmapField) (x : Type_) :
    x ∈ (decodeAll m f).getTypes ↔ x ∈ f.getTypes ∨ x ∈ typesOfWindows m := by
  induction m generalizing f with
  | nil => simp [decodeAll, typesOfWindows_nil]
  | cons e rest ih =>
    have hrest : WindowsOk rest := fun e he => hm e (List.mem_cons_of_mem _ he)
    have hhead := hm e (List.mem_cons_self _ _)
    have hstep := ih hrest (f.addWindow (Window.parse e.1 e.2.bitmap))
    simp only [decodeAll, List.foldl_cons] at hstep ⊢
    rw [hstep, NSECBitmapField.mem_getTypes_addWindow,
      Window.mem_parse_bitmap e.2 e.1 hhead.2.2, typesOfWindows_cons, List.mem_append]
    tauto

/-- C20. NSEC bitmap round trip. For every list of 16-bit types added with `add`, parsing
the octets written by `outputWireFormat` succeeds and yields a field whose `getTypes()`
holds exactly the added types; for 1, 2, 15 and 65535 the octets are the window 0 with
the two octets 60 01 and the window 255 with 32 octets ending in 01, and the parsed field
has the types 1, 2, 15, 65535 in one window of index 0 and one of index 255. -/
theorem C20_NSEC_bitmap_round_trip (ts : List Type_) (hts : ∀ t ∈ ts, t < 65536) :
    (∃ g, NSECBitmapField.parse (NSECBitmapField.addAll ts).outputWireFormat = some g ∧
      ∀ x, x ∈ g.getTypes ↔ x ∈ ts) ∧
    (NSECBitmapField.addAll [1, 2, 15, 65535]).outputWireFormat =
      [0, 2, 0x60, 0x01, 255, 32] ++ List.replicate 31 0 ++ [0x01] ∧
    NSECBitmapField.parse (NSECBitmapField.addAll [1, 2, 15, 65535]).outputWireFormat =
      some { mWindows := [(0, ⟨0, [1, 2, 15]⟩), (255, ⟨255, [65535]⟩)] } ∧
    NSECBitmapField.getTypes { mWindows := [(0, ⟨0, [1, 2, 15]⟩), (255, ⟨255, [65535]⟩)] } =
      [1, 2, 15, 65535] := by
  have hok : WindowsOk (NSECBitmapField.addAll ts).mWindows :=
    WindowsOk.foldl_add ts _ (by intro e he; simp at he) hts
  refine ⟨⟨decodeAll (NSECBitmapField.addAll ts).mWindows { mWindows := [] }, ?_, ?_⟩,
    by decide, by decide, by decide⟩
  · exact parseAux_encodeWindows _ hok _ _ (Nat.le_refl _)
  · intro x
    rw [mem_getTypes_decodeAll _ hok]
    have h := NSECBitmapField.mem_getTypes_foldl_add ts { mWindows := [] } x
    simp only [NSECBitmapField.getTypes, typesOfWindows_nil, List.not_mem_nil,
      false_or] at h ⊢
    exact h

/-- C20 (witness). The types 65535, 2, 15, 1, 2, added in this order, are all 16-bit; the
field parsed from their encoding holds exactly these types. -/
theorem C20_NSEC_bitmap_round_trip_witness :
    (∀ t ∈ [65535, 2, 15, 1, 2], t < 65536) ∧
    ∃ g, NSECBitmapField.parse (NSECBitmapField.addAll [65535, 2, 15, 1, 2]).outputWireFormat
        = some g ∧
      ∀ x, x ∈ g.getTypes ↔ x ∈ [65535, 2, 15, 1, 2] :=
  ⟨by decide, (C20_NSEC_bitmap_round_trip [65535, 2, 15, 1, 2] (by decide)).1⟩

/-! ### Sizes with and without an offset table -/

/-- C21. For every RDATA object of a class other than NS, CNAME, MX, SRV, SOA and DNAME,
`size( offset_db, begin )` equals `size()`, for every offset table and every begin
offset. -/
theorem C21_sizeAt_eq_size {OffsetDB : Type} (S : SizeCollaborators OffsetDB)
    (offset_db : OffsetDB) (begin_ : Nat) (r : RDATA)
    (h : r.embedsCompressibleName = false) :
    r.sizeAt S offset_db begin_ = r.size S := by
  cases r <;> first | rfl | exact Bool.noConfusion h

/-- C21 (witness). An RRSIG record, which is none of the six classes set apart, has the
same size 22 with the offset table and begin offset 40 as without. -/
theorem C21_sizeAt_eq_size_witness :
    (RDATA.RRSIG (RecordRRSIG.new 1 8 2 3600 1700003600 1700000000 0x1234
      ⟨["example", "com"]⟩ [9])).embedsCompressibleName = false ∧
    (RDATA.RRSIG (RecordRRSIG.new 1 8 2 3600 1700003600 1700000000 0x1234
      ⟨["example", "com"]⟩ [9])).sizeAt sampleSizes () 40 = 22 ∧
    (RDATA.RRSIG (RecordRRSIG.new 1 8 2 3600 1700003600 1700000000 0x1234
      ⟨["example", "com"]⟩ [9])).size sampleSizes = 22 :=
  have h := C21_sizeAt_eq_size sampleSizes () 40
    (RDATA.RRSIG (RecordRRSIG.new 1 8 2 3600 1700003600 1700000000 0x1234
      ⟨["example", "com"]⟩ [9])) rfl
  ⟨rfl, h.trans (by decide), by decide⟩

/-! ### Outcomes of `verifyTSIGQuery` -/

/-- C22. `verifyTSIGQuery` returns `NO_ERROR` only if the key name of the query was found
in the key table and `verifyTSIGResourceRecord`, called with the secret and algorithm of
that entry, returned true; it returns `BADSIG` only if the key was found and that call
returned false. -/
theorem C22_verifyTSIGQuery_outcomes (X : Collaborators) (now : Int) (self : DNSServer)
    (query : PacketInfo) (message : WireFormat) :
    (DNSServer.verifyTSIGQuery X now self query message = NO_ERROR →
      ∃ k, mapFind self.mNameToKey (X.toString query.tsig_rr.key_name) = some k ∧
        (tsigInfoOf X query k).key = k.key ∧ (tsigInfoOf X query k).algorithm = k.algorithm ∧
        X.verifyTSIGResourceRecord (tsigInfoOf X query k) query message = true) ∧
    (DNSServer.verifyTSIGQuery X now self query message = BADSIG →
      ∃ k, mapFind self.mNameToKey (X.toString query.tsig_rr.key_name) = some k ∧
        (tsigInfoOf X query k).key = k.key ∧ (tsigInfoOf X query k).algorithm = k.algorithm ∧
        X.verifyTSIGResourceRecord (tsigInfoOf X query k) query message = false) := by
  cases hf : mapFind self.mNameToKey (X.toString query.tsig_rr.key_name) with
  | none =>
    have hres : DNSServer.verifyTSIGQuery X now self query message = BADKEY := by
      unfold DNSServer.verifyTSIGQuery
      rw [hf]
    rw [hres]
    exact ⟨fun h => absurd h (by decide), fun h => absurd h (by decide)⟩
  | some k =>
    rw [verifyTSIGQuery_of_found X now self query message k hf]
    constructor
    · intro h
      refine ⟨k, rfl, rfl, rfl, ?_⟩
      split_ifs at h with h1 h2
      · exact absurd h (by decide)
      · exact h2
      · exact absurd h (by decide)
    · intro h
      refine ⟨k, rfl, rfl, rfl, ?_⟩
      split_ifs at h with h1 h2
      · exact absurd h (by decide)
      · exact absurd h (by decide)
      · simpa [tsigInfoOf] using h2

/-- C22 (witness). Both outcomes occur: with the key `key.` in the table and a query
signed on the edge of the window, the answer is `NO_ERROR` when the verifier accepts and
`BADSIG` when it rejects, and in both cases the key is the entry of the table. -/
theorem C22_verifyTSIGQuery_outcomes_witness :
    DNSServer.verifyTSIGQuery (fixedCollaborators true) 1700000000 (sampleServer "key.")
      (sampleQuery ["key"] 1700000300 300) [] = NO_ERROR ∧
    DNSServer.verifyTSIGQuery (fixedCollaborators false) 1700000000 (sampleServer "key.")
      (sampleQuery ["key"] 1700000300 300) [] = BADSIG ∧
    (∃ k, mapFind (sampleServer "key.").mNameToKey
        ((fixedCollaborators true).toString (sampleQuery ["key"] 1700000300 300).tsig_rr.key_name)
        = some k ∧
      (fixedCollaborators true).verifyTSIGResourceRecord
        (tsigInfoOf (fixedCollaborators true) (sampleQuery ["key"] 1700000300 300) k)
        (sampleQuery ["key"] 1700000300 300) [] = true) :=
  have h := (C22_verifyTSIGQuery_outcomes (fixedCollaborators true) 1700000000
    (sampleServer "key.") (sampleQuery ["key"] 1700000300 300) []).1 (by decide)
  ⟨by decide, by decide, h.elim fun k hk => ⟨k, hk.1, hk.2.2.2⟩⟩

/-! ### The UDP and TCP server steps -/

/-- C23. In the UDP server step the message handed to `generateMessage` is the same for
every code `verifyTSIGQuery` returns: it is `generateResponse( query, false )` after the
size check. When the query carries a TSIG record and the code is not `NO_ERROR`, the
value of `generateTSIGErrorResponse` is built and is no part of that message. -/
theorem C23_udp_reply_independent_of_tsig (parseName : String → Domainname)
    (indeterminate : Nat) (generateResponse : MessageInfo → Bool → MessageInfo)
    (getMessageSize : MessageInfo → Nat) (rcode rcode' : ResponseCode)
    (query : MessageInfo) :
    (udpTurn parseName indeterminate generateResponse getMessageSize rcode query).response_info =
      (udpTurn parseName indeterminate generateResponse getMessageSize rcode'
        query).response_info ∧
    (udpTurn parseName indeterminate generateResponse getMessageSize rcode query).response_info =
      udpSizeStep getMessageSize query (generateResponse query false) ∧
    (udpTurn parseName indeterminate generateResponse getMessageSize BADKEY
        { query with mIsTSIG := true }).tsig_error_response =
      some (DNSServer.generateTSIGErrorResponse parseName indeterminate
        { query with mIsTSIG := true } BADKEY) ∧
    (udpTurn parseName indeterminate generateResponse getMessageSize NO_ERROR
        query).tsig_error_response = none := by
  refine ⟨rfl, rfl, ?_, ?_⟩
  · simp [udpTurn, BADKEY, NO_ERROR]
  · simp [udpTurn]

/-- C24 (evaluation at the failing input). For the query parsed from a message whose
header has QDCOUNT 0, with an empty question section, index 0 of `question_section` is
outside the vector; for the sample query with one question the index is inside and the
branch taken is the ordinary response. -/
theorem C24_tcp_question_index_out_of_bounds :
    ({ sampleMessage with mQuestionSection := [] } : MessageInfo).mQuestionSection.length = 0 ∧
    tcpBranch { sampleMessage with mQuestionSection := [] } = none ∧
    tcpBranch sampleMessage = some TCPBranch.respond := by
  decide

/-! ### Response codes in the header -/

theorem PacketHeaderField.octets_eq (h : PacketHeaderField) :
    h.octets = [octetOf h.image 0, octetOf h.image 1, octetOf h.image 2, octetOf h.image 3,
      octetOf h.image 4, octetOf h.image 5, octetOf h.image 6, octetOf h.image 7,
      octetOf h.image 8, octetOf h.image 9, octetOf h.image 10, octetOf h.image 11] := by
  simp [PacketHeaderField.octets, PacketHeaderField.sizeof_eq, List.range_succ]

/-- A response code stored in the header comes back reduced to its four low bits. -/
theorem responseCodeRoundTrip_eq (h : PacketHeaderField) (c : ResponseCode) :
    responseCodeRoundTrip h c = c % 16 := by
  unfold responseCodeRoundTrip
  rw [PacketHeaderField.octets_eq, PacketHeaderField.ofOctets_eq]
  show @Eq Nat (octetOf ({ h with response_code := c } : PacketHeaderField).image 3 % 16)
    (c % 16)
  rw [PacketHeaderField.image_eq]
  simp only [octetOf, Nat.shiftRight_eq_div_pow]
  omega

/-- C25 (counterexample). `BADSIG`, which is 16, stored in the 4-bit `response_code` of a
header and read back, yields 0. -/
theorem C25_BADSIG_does_not_fit :
    BADSIG = 16 ∧
    responseCodeRoundTrip (PacketHeaderField.mk 1 1 0 0 0 0 0 0 0 0 0 1 0 0 0) BADSIG = 0 ∧
    responseCodeRoundTrip (PacketHeaderField.mk 1 1 0 0 0 0 0 0 0 0 0 1 0 0 0) BADSIG ≠
      BADSIG :=
  have h := responseCodeRoundTrip_eq (PacketHeaderField.mk 1 1 0 0 0 0 0 0 0 0 0 1 0 0 0)
    BADSIG
  ⟨rfl, h.trans (by decide), fun e => absurd (h.symm.trans e) (by decide)⟩

/-- C25 (amended). The constants `NO_ERROR`, `NXRRSET`, `FORMAT_ERROR`, `SERVER_ERROR`,
`NAME_ERROR`, `NXDOMAIN`, `NOT_IMPLEENTED` and `REFUSED` fit the 4-bit `response_code`:
stored in any header and read back, each yields itself. `BADSIG`, `BADKEY` and `BADTIME`
(16, 17, 18) do not: they come back as 0, 1 and 2. -/
theorem C25_response_codes_in_header (h : PacketHeaderField) :
    responseCodeRoundTrip h NO_ERROR = NO_ERROR ∧
    responseCodeRoundTrip h NXRRSET = NXRRSET ∧
    responseCodeRoundTrip h FORMAT_ERROR = FORMAT_ERROR ∧
    responseCodeRoundTrip h SERVER_ERROR = SERVER_ERROR ∧
    responseCodeRoundTrip h NAME_ERROR = NAME_ERROR ∧
    responseCodeRoundTrip h NXDOMAIN = NXDOMAIN ∧
    responseCodeRoundTrip h NOT_IMPLEENTED = NOT_IMPLEENTED ∧
    responseCodeRoundTrip h REFUSED = REFUSED ∧
    responseCodeRoundTrip h BADSIG = 0 ∧
    responseCodeRoundTrip h BADKEY = 1 ∧
    responseCodeRoundTrip h BADTIME = 2 := by
  simp only [responseCodeRoundTrip_eq]
  decide

/-! ### Option codes, key tags, key flags -/

/-- C26 (evaluation at the failing input). `ErrorReportingOption::code()` is 15
(`OPT_EXTEND_ERROR`), not 18 (`OPT_ERROR_REPORTING`), the very code an
`ExtendedErrorOption` reports; the six other classes report the codes 3, 8, 10, 11,
14 and 15. -/
theorem C26_ErrorReportingOption_code :
    (OptPseudoRROption.ErrorReportingOption ⟨["agent", "example"]⟩).code = 15 ∧
    OPT_ERROR_REPORTING = 18 ∧
    (OptPseudoRROption.ErrorReportingOption ⟨["agent", "example"]⟩).code ≠
      OPT_ERROR_REPORTING ∧
    (OptPseudoRROption.ErrorReportingOption ⟨["agent", "example"]⟩).code =
      (OptPseudoRROption.ExtendedErrorOption 0 "").code ∧
    (OptPseudoRROption.NSIDOption "").code = 3 ∧
    (OptPseudoRROption.ClientSubnetOption 1 24 0 "").code = 8 ∧
    (OptPseudoRROption.CookieOption [] []).code = 10 ∧
    (OptPseudoRROption.TCPKeepaliveOption 0).code = 11 ∧
    (OptPseudoRROption.KeyTagOption []).code = 14 ∧
    (OptPseudoRROption.ExtendedErrorOption 0 "").code = 15 := by
  decide

/-- What `getKeyTag()` returns for a record built by the constructor: the low octet of
the key tag. -/
theorem RecordRRSIG.getKeyTag_new (t algo label : Nat) (ttl : Int)
    (expire incept tag : Nat) (sign : Domainname) (sig : PacketData) :
    (RecordRRSIG.new t algo label ttl expire incept tag sign sig).getKeyTag = tag % 256 := by
  simp only [RecordRRSIG.getKeyTag, RecordRRSIG.new, toUInt16, toUInt8, Nat.reducePow]
  omega

/-- C27 (evaluation at the failing input). A `RecordRRSIG` constructed with the 16-bit key
tag 0x1234 holds 0x1234 in `mKeyTag` and returns 0x34 from `getKeyTag()`. -/
theorem C27_RecordRRSIG_getKeyTag_truncated :
    (0x1234 : Nat) < 2 ^ 16 ∧
    (RecordRRSIG.new 1 8 2 3600 1700003600 1700000000 0x1234 ⟨["example", "com"]⟩
      [9, 9]).mKeyTag = 0x1234 ∧
    (RecordRRSIG.new 1 8 2 3600 1700003600 1700000000 0x1234 ⟨["example", "com"]⟩
      [9, 9]).getKeyTag = 0x34 ∧
    (RecordRRSIG.new 1 8 2 3600 1700003600 1700000000 0x1234 ⟨["example", "com"]⟩
      [9, 9]).getKeyTag ≠ 0x1234 := by
  decide

/-- C28 (evaluation). `RecordDNSKEY::KSK` is 256 and `KeyType` `KSK` is 257;
`RecordDNSKEY::ZSK` is 0 and `KeyType` `ZSK` is 256: neither pair agrees, and the value
the record class calls `KSK` is the one the signer calls `ZSK`. -/
theorem C28_key_role_flags_disagree :
    RecordDNSKEY.KSK = 256 ∧ KeyType.KSK.value = 257 ∧
    RecordDNSKEY.KSK ≠ KeyType.KSK.value ∧
    RecordDNSKEY.ZSK = 0 ∧ KeyType.ZSK.value = 256 ∧
    RecordDNSKEY.ZSK ≠ KeyType.ZSK.value ∧
    RecordDNSKEY.KSK = KeyType.ZSK.value := by
  decide

/-! ### Default construction -/

/-- C29 (evaluation at the failing input). An `OptPseudoRecord` default-constructed in
storage whose octet at `mVersion` holds 0xab has EDNS version 0xab, not 0; the name is
the conversion of `"."`, the payload size 1280, the extended rcode 0, the DO bit clear
and the option list empty, whatever the storage held. -/
theorem C29_OptPseudoRecord_version_indeterminate :
    ∀ (parseName : String → Domainname),
      (OptPseudoRecord.construct parseName 0xab).mVersion = 0xab ∧
      (OptPseudoRecord.construct parseName 0xab).mVersion ≠ 0 ∧
      (OptPseudoRecord.construct parseName 0).mVersion = 0 ∧
      (∀ indeterminate : Nat,
        (OptPseudoRecord.construct parseName indeterminate).mDomainname = parseName "." ∧
        (OptPseudoRecord.construct parseName indeterminate).mPayloadSize = 1280 ∧
        (OptPseudoRecord.construct parseName indeterminate).mRCode = 0 ∧
        (OptPseudoRecord.construct parseName indeterminate).mDOBit = false ∧
        (OptPseudoRecord.construct parseName indeterminate).mOptions =
          some (.OptionsData { mOptions := [] })) := by
  intro parseName
  have h1 : toUInt8 0xab = 0xab := by decide
  have h2 : toUInt8 0xab ≠ 0 := by decide
  have h3 : toUInt8 0 = 0 := by decide
  exact ⟨h1, h2, h3, fun _ => ⟨rfl, rfl, rfl, rfl, rfl⟩⟩

/-- C30. `isDNSSECOK()` returns true if and only if `mIsEDNS0` is true and the DO bit of
the OPT pseudo-record is set; with `mIsEDNS0` false it returns false whatever DO bit is
stored; a default-constructed `MessageInfo` reports `isEDNS0()` false and `isDNSSECOK()`
false. -/
theorem C30_isDNSSECOK (m : MessageInfo) (dobit : Bool) (parseName : String → Domainname)
    (indeterminate : Nat) :
    (m.isDNSSECOK = true ↔ m.mIsEDNS0 = true ∧ m.mOptPseudoRR.mDOBit = true) ∧
    ({ m with
        mIsEDNS0 := false
        mOptPseudoRR := { m.mOptPseudoRR with mDOBit := dobit } } : MessageInfo).isDNSSECOK
      = false ∧
    (MessageInfo.construct parseName indeterminate).isEDNS0 = false ∧
    (MessageInfo.construct parseName indeterminate).isDNSSECOK = false := by
  refine ⟨?_, rfl, rfl, rfl⟩
  unfold MessageInfo.isDNSSECOK
  cases m.mIsEDNS0 <;> simp

end dns
